import Mathlib

/-! Verification development for `managed-bots`: `pollbot/handler.go` and `gcalbot/util.go`.

Go strings are embedded as lists of characters.  Every byte the code inspects
(`%`, `-`, `=`, `,`, digits) is ASCII, and in UTF-8 an ASCII byte never occurs
inside a multi-byte sequence, so matching on characters agrees with Go's
matching on bytes for well-formed UTF-8 text.
-/

namespace ManagedBots

/-- Go `string`. -/
abbrev GoString := List Char

/-! ## Standard-library helpers used by the handlers -/

/-- Go `strings.ReplaceAll(s, old, new)` for a non-empty `old` (the only way the
source calls it): scanning left to right, every non-overlapping occurrence of
`old` is replaced by `new`.  The first argument counts the characters of an
occurrence that are still to be skipped. -/
def replaceAllAux (old new : GoString) : Nat → GoString → GoString
  | _, [] => []
  | k + 1, _ :: cs => replaceAllAux old new k cs
  | 0, c :: cs =>
    if old.isPrefixOf (c :: cs) then new ++ replaceAllAux old new (old.length - 1) cs
    else c :: replaceAllAux old new 0 cs

/-- Go `strings.ReplaceAll(s, old, new)`, argument order as in Go. -/
def replaceAll (s old new : GoString) : GoString :=
  replaceAllAux old new 0 s

/-- The string has percent characters only as adjacent pairs: reading left to
right, each percent character met is immediately followed by a second one, and
the two are consumed together. -/
def percentsPaired : GoString → Bool
  | [] => true
  | [c] => c != '%'
  | c :: d :: rest =>
    if c = '%' then (d == '%' && percentsPaired rest) else percentsPaired (d :: rest)

/-- Doubling of percent characters, character by character. -/
def doublePercents : GoString → GoString
  | [] => []
  | c :: cs => if c = '%' then '%' :: '%' :: doublePercents cs else c :: doublePercents cs

/-! ## pollbot: the handler and its collaborators -/

/-- Go `chat1.ConvIDStr` (a string type). -/
abbrev ConvIDStr := GoString

/-- Go `chat1.MessageID` (an unsigned integer type). -/
abbrev MessageID := Nat

/-- The fields of Go's `Handler` that the code reads, together with the pure
functions of other packages it calls: `NewVote(convID, msgID, choice).Encode()`
(`encodeVote`), `url.QueryEscape` (`queryEscape`), `base.NumberToEmoji`
(`numberToEmoji`) and `kbc.GetUsername()` (`botUsername`).  None of these is
constrained: every theorem holds for all of them. -/
structure Handler where
  httpPrefix : GoString
  botUsername : GoString
  encodeVote : ConvIDStr → MessageID → Int → GoString
  queryEscape : GoString → GoString
  numberToEmoji : Int → GoString

/-- The link before the percent characters are doubled (line 39). -/
def voteLinkRaw (h : Handler) (convID : ConvIDStr) (msgID : MessageID) (choice : Int) :
    GoString :=
  h.httpPrefix ++ "/pollbot/vote?=".toList ++ h.queryEscape (h.encodeVote convID msgID choice)

/-- Go `Handler.generateVoteLink`. -/
def generateVoteLink (h : Handler) (convID : ConvIDStr) (msgID : MessageID) (choice : Int) :
    GoString :=
  let link := voteLinkRaw h convID msgID choice
  replaceAll link "%".toList "%%".toList

/-- Go `strconv.ParseBool`, which `flag` uses to read the value of a boolean flag. -/
def parseBool (s : GoString) : Option Bool :=
  if s ∈ ["1".toList, "t".toList, "T".toList, "TRUE".toList, "true".toList, "True".toList] then
    some true
  else if s ∈ ["0".toList, "f".toList, "F".toList, "FALSE".toList, "false".toList,
      "False".toList] then
    some false
  else none

/-- The errors of Go's `flag.FlagSet.Parse`, by format string. -/
inductive FlagErr where
  /-- Text `bad flag syntax: %s`. -/
  | badSyntax (arg : GoString)
  /-- Text `flag provided but not defined: -%s`. -/
  | notDefined (name : GoString)
  /-- The value `flag.ErrHelp`. -/
  | help
  /-- Text `invalid boolean value %q for -%s: %v`. -/
  | invalidBool (value name : GoString)
  deriving DecidableEq, Repr

/-- Splits `name=value` at the first `=` found from index 1 on, as the loop in
Go's `FlagSet.parseOne` does. -/
def splitFlagValue : GoString → GoString × Option GoString
  | [] => ([], none)
  | c :: rest =>
    match rest.span (fun x => x != '=') with
    | (n, []) => (c :: n, none)
    | (n, _ :: v) => (c :: n, some v)

/-- Go `FlagSet.Parse` for the flag set built in `handlePoll` (lines 107-109): a
single boolean flag `anonymous`, error handling `ContinueOnError`.  The first
argument is the current value of the variable `anonymous`; the result is its
final value and the remaining positional arguments (`flags.Args()`).  Each
round of Go's loop over `parseOne` consumes one argument. -/
def flagParse : Bool → List GoString → Except FlagErr (Bool × List GoString)
  | anonymous, [] => .ok (anonymous, [])
  | anonymous, s :: rest =>
    if s.length < 2 || s.head? != some '-' then .ok (anonymous, s :: rest)
    else
      let numMinuses := if s.get? 1 = some '-' then 2 else 1
      if numMinuses = 2 && s.length = 2 then .ok (anonymous, rest)
      else
        let name := s.drop numMinuses
        if name.length = 0 || name.head? = some '-' || name.head? = some '=' then
          .error (.badSyntax s)
        else
          match splitFlagValue name with
          | (name, value) =>
            if name = "anonymous".toList then
              match value with
              | none => flagParse true rest
              | some v =>
                match parseBool v with
                | some b => flagParse b rest
                | none => .error (.invalidBool v name)
            else if name = "help".toList || name = "h".toList then .error .help
            else .error (.notDefined name)

/-- Go `error` values returned by the handler. -/
inductive GoErr where
  /-- An error value received from a collaborator, by its text. -/
  | external (msg : GoString)
  /-- Call `fmt.Errorf(msg)` without verbs. -/
  | new (msg : GoString)
  /-- Call `fmt.Errorf(pre + "%s", inner)`. -/
  | wrap (pre : GoString) (inner : GoErr)
  /-- An error of `flags.Parse`. -/
  | flag (e : FlagErr)
  deriving DecidableEq, Repr

/-- What a call of the chat transport returns: an error, or a response whose
`Result.MessageID` pointer may be nil. -/
inductive SendResult where
  | failed (err : GoString)
  | sent (msgID : Option MessageID)
  deriving DecidableEq, Repr

/-- The calls the handler makes on its collaborators, each with what it
returned, in the order they are made. -/
inductive Event where
  /-- Call `kbc.SendMessageByConvID(convID, body)`. -/
  | send (convID : ConvIDStr) (body : GoString) (res : SendResult)
  /-- Call `kbc.SendMessageByTlfName(tlfName, body)`. -/
  | sendTlf (tlfName : GoString) (body : GoString) (res : SendResult)
  /-- Call `kbc.ReactByConvID(convID, msgID, reaction)`. -/
  | react (convID : ConvIDStr) (msgID : MessageID) (reaction : GoString) (res : SendResult)
  /-- Call `db.CreatePoll(convID, msgID, resultMsgID, numChoices)`. -/
  | createPoll (convID : ConvIDStr) (msgID resultMsgID : MessageID) (numChoices : Int)
      (res : Option GoString)
  /-- Call `httpSrv.LoginToken(username)`. -/
  | loginToken (username : GoString) (token : GoString)
  /-- Call `h.ChatEcho(convID, msg)`. -/
  | chatEcho (convID : ConvIDStr) (msg : GoString)
  /-- Call `h.ChatErrorf(convID, format, err)`. -/
  | chatErrorf (convID : ConvIDStr) (format : GoString) (err : GoString)
  /-- Call `h.Debug(format, err)`. -/
  | debug (format : GoString) (err : GoString)
  deriving DecidableEq, Repr

/-- What `base.SplitTokens` returns: `(toks, userErr, err)`. -/
structure SplitResult where
  toks : List GoString
  userErr : GoString
  err : Option GoString
  deriving DecidableEq, Repr

/-- The collaborators of the handler: chat transport, poll store, login token
issuer and tokenizer.  What a call returns may depend on every call made
before it (the first argument); nothing else is assumed of them. -/
structure Env where
  sendMessageByConvID : List Event → ConvIDStr → GoString → SendResult
  sendMessageByTlfName : List Event → GoString → GoString → SendResult
  reactByConvID : List Event → ConvIDStr → MessageID → GoString → SendResult
  createPoll : List Event → ConvIDStr → MessageID → MessageID → Int → Option GoString
  loginToken : List Event → GoString → GoString
  splitTokens : GoString → SplitResult

/-- One round of the loop of lines 55-58:
`fmt.Sprintf("\n%s  *%s*\n%s\n", emoji, option, link)`. -/
def choiceEntry (emoji option link : GoString) : GoString :=
  "\n".toList ++ emoji ++ "  *".toList ++ option ++ "*\n".toList ++ link ++ "\n".toList

/-- The loop of lines 55-58, from index `index` on, appending to `body`. -/
def choicesLoop (h : Handler) (convID : ConvIDStr) (promptMsgID : MessageID) :
    Nat → List GoString → GoString → GoString
  | _, [], body => body
  | index, option :: rest, body =>
    choicesLoop h convID promptMsgID (index + 1) rest
      (body ++ choiceEntry (h.numberToEmoji ((index : Int) + 1)) option
        (generateVoteLink h convID promptMsgID ((index : Int) + 1)))

/-- The prompt message of an anonymous poll (line 45):
`fmt.Sprintf("Anonymous Poll: *%s*\n\n", prompt)`. -/
def anonymousPromptBody (prompt : GoString) : GoString :=
  "Anonymous Poll: *".toList ++ prompt ++ "*\n\n".toList

/-- The results placeholder of an anonymous poll (line 62). -/
def resultsPlaceholder : GoString := "*Results*\n_No votes yet_".toList

/-- Go `Handler.generateAnonymousPoll`: the returned error and the calls made,
given the calls `tr` made before. -/
def generateAnonymousPoll (h : Handler) (env : Env) (tr : List Event) (convID : ConvIDStr)
    (_msgID : MessageID) (prompt : GoString) (options : List GoString) :
    Option GoErr × List Event :=
  let promptBody := anonymousPromptBody prompt
  let r1 := env.sendMessageByConvID tr convID promptBody
  let e1 := Event.send convID promptBody r1
  match r1 with
  | .failed err => (some (.wrap "failed to send poll: ".toList (.external err)), [e1])
  | .sent none => (some (.new "failed to get ID of prompt message".toList), [e1])
  | .sent (some promptMsgID) =>
    let body := choicesLoop h convID promptMsgID 0 options []
    let r2 := env.sendMessageByConvID (tr ++ [e1]) convID body
    let e2 := Event.send convID body r2
    match r2 with
    | .failed err => (some (.wrap "failed to send choices: ".toList (.external err)), [e1, e2])
    | .sent _ =>
      let r3 := env.sendMessageByConvID (tr ++ [e1, e2]) convID resultsPlaceholder
      let e3 := Event.send convID resultsPlaceholder r3
      match r3 with
      | .failed err => (some (.wrap "failed to send poll: ".toList (.external err)), [e1, e2, e3])
      | .sent none => (some (.new "failed to get ID of result message".toList), [e1, e2, e3])
      | .sent (some resultMsgID) =>
        let r4 := env.createPoll (tr ++ [e1, e2, e3]) convID promptMsgID resultMsgID
          (options.length : Int)
        let e4 := Event.createPoll convID promptMsgID resultMsgID (options.length : Int) r4
        match r4 with
        | some err =>
          (some (.wrap "failed to create poll: ".toList (.external err)), [e1, e2, e3, e4])
        | none => (none, [e1, e2, e3, e4])

/-- The loop of lines 78-80, from index `index` on, appending to `body`. -/
def optionsLoop (h : Handler) : Nat → List GoString → GoString → GoString
  | _, [], body => body
  | index, option :: rest, body =>
    optionsLoop h (index + 1) rest
      (body ++ (h.numberToEmoji ((index : Int) + 1) ++ "  ".toList ++ option ++ "\n".toList))

/-- The loop of lines 89-94, from index `index` on: the calls made, given the
calls `tr` made before. -/
def reactLoop (h : Handler) (env : Env) (convID : ConvIDStr) (msgID : MessageID) :
    Nat → List GoString → List Event → List Event
  | _, [], _ => []
  | index, _ :: rest, tr =>
    let r := env.reactByConvID tr convID msgID (h.numberToEmoji ((index : Int) + 1))
    let e := Event.react convID msgID (h.numberToEmoji ((index : Int) + 1)) r
    let evs :=
      match r with
      | .failed err => [e, Event.chatErrorf convID "failed to set reaction option: %s".toList err]
      | .sent _ => [e]
    evs ++ reactLoop h env convID msgID (index + 1) rest (tr ++ evs)

/-- The message of a public poll (lines 77-81). -/
def pollBody (h : Handler) (prompt : GoString) (options : List GoString) : GoString :=
  optionsLoop h 0 options ("Poll: *".toList ++ prompt ++ "*\n\n".toList) ++
    "Tap a reaction below to register your vote!".toList

/-- Go `Handler.generatePoll`: the returned error and the calls made, given the
calls `tr` made before. -/
def generatePoll (h : Handler) (env : Env) (tr : List Event) (convID : ConvIDStr)
    (_msgID : MessageID) (prompt : GoString) (options : List GoString) :
    Option GoErr × List Event :=
  let body := pollBody h prompt options
  let r := env.sendMessageByConvID tr convID body
  let e := Event.send convID body r
  match r with
  | .failed err => (some (.wrap "failed to send poll: ".toList (.external err)), [e])
  | .sent none => (some (.new "failed to get ID of prompt message".toList), [e])
  | .sent (some id) => (none, e :: reactLoop h env convID id 0 options (tr ++ [e]))

/-- How a call of `handlePoll` ends: it returns an `error` (possibly nil), or
the index expression `toks[0]` panics on an empty token list. -/
inductive Outcome where
  | ret (err : Option GoErr)
  | panic
  deriving DecidableEq, Repr

/-- The error of line 114. -/
def usageError : GoErr := .new "must specify a prompt and at least one option".toList

/-- Go `Handler.handlePoll`: how the call ends and the calls made, given the
calls `tr` made before. -/
def handlePoll (h : Handler) (env : Env) (tr : List Event) (cmd : GoString)
    (convID : ConvIDStr) (msgID : MessageID) : Outcome × List Event :=
  let sp := env.splitTokens cmd
  match sp.err with
  | some err => (.ret (some (.external err)), [])
  | none =>
    if sp.userErr ≠ [] then (.ret none, [Event.chatEcho convID sp.userErr])
    else
      match sp.toks with
      | [] => (.panic, [])
      | _ :: rest =>
        match flagParse false rest with
        | .error fe =>
          (.ret (some (.wrap "failed to parse poll command: ".toList (.flag fe))), [])
        | .ok (anonymous, args) =>
          if args.length < 2 then
            (.ret (some usageError), [])
          else
            let prompt := args.headD []
            let res :=
              if anonymous then generateAnonymousPoll h env tr convID msgID prompt args.tail
              else generatePoll h env tr convID msgID prompt args.tail
            (.ret res.1, res.2)

/-- The text of the login message before the link (lines 131-135). -/
def loginIntro : GoString :=
  ("Thanks for using the Keybase polling service!\n\n" ++
   "To login your web browser in order to vote in anonymous polls, please follow the link " ++
   "below. Once that is completed, you will be able to vote in anonymous polls simply by " ++
   "clicking the links that I provide in the polls.\n\n").toList

/-- The login link (line 135):
`fmt.Sprintf("%s/pollbot/login?token=%s&username=%s", h.httpPrefix, token, username)`. -/
def loginLink (h : Handler) (token username : GoString) : GoString :=
  h.httpPrefix ++ "/pollbot/login?token=".toList ++ token ++ "&username=".toList ++ username

/-- Go `Handler.handleLogin`: the calls made, given the calls `tr` made before. -/
def handleLogin (h : Handler) (env : Env) (tr : List Event) (convName username : GoString) :
    List Event :=
  if !(convName == username ++ ",".toList ++ h.botUsername ||
       convName == h.botUsername ++ ",".toList ++ username) then []
  else
    let token := env.loginToken tr username
    let e1 := Event.loginToken username token
    let body := loginIntro ++ loginLink h token username
    let r := env.sendMessageByTlfName (tr ++ [e1]) username body
    let e2 := Event.sendTlf username body r
    match r with
    | .failed err => [e1, e2, Event.debug "failed to send login attempt: %s".toList err]
    | .sent _ => [e1, e2]

/-! ## Predicates on calls -/

/-- A call of `SendMessageByConvID` that returned an error. -/
def Event.isSendFailure : Event → Bool
  | .send _ _ (.failed _) => true
  | _ => false

/-- A call of `SendMessageByConvID` that returned a response without a message ID. -/
def Event.isSendWithoutID : Event → Bool
  | .send _ _ (.sent none) => true
  | _ => false

/-- A call of `db.CreatePoll`. -/
def Event.isCreatePoll : Event → Bool
  | .createPoll _ _ _ _ _ => true
  | _ => false

/-- A call that sends a message through the chat transport. -/
def Event.isSend : Event → Bool
  | .send _ _ _ => true
  | .sendTlf _ _ _ => true
  | _ => false

/-- A call of `httpSrv.LoginToken`. -/
def Event.isLoginToken : Event → Bool
  | .loginToken _ _ => true
  | _ => false

/-- The conversation, message and marker of a call of `ReactByConvID`. -/
def Event.reaction? : Event → Option (ConvIDStr × MessageID × GoString)
  | .react c m r _ => some (c, m, r)
  | _ => none

/-! ## Concrete collaborators, for evaluating the handlers -/

/-- A handler whose vote encoding is `conv:msg:choice`, whose query escaping
replaces `:` by `%3A`, and whose markers are `:n:`. -/
def exampleHandler : Handler where
  httpPrefix := "https://bots.example".toList
  botUsername := "pollbot".toList
  encodeVote := fun c m ch =>
    c ++ ":".toList ++ Nat.toDigits 10 m ++ ":".toList ++ Nat.toDigits 10 ch.toNat
  queryEscape := fun s => s.flatMap (fun c => if c = ':' then "%3A".toList else [c])
  numberToEmoji := fun n => ":".toList ++ Nat.toDigits 10 n.toNat ++ ":".toList

/-- Collaborators that always succeed: the n-th call of the transport returns
message ID `100 + n`, the tokenizer splits on blanks and reports an odd number
of quotes to the user. -/
def exampleEnv : Env where
  sendMessageByConvID := fun tr _ _ => .sent (some (100 + tr.length))
  sendMessageByTlfName := fun tr _ _ => .sent (some (100 + tr.length))
  reactByConvID := fun _ _ _ _ => .sent none
  createPoll := fun _ _ _ _ _ => none
  loginToken := fun _ _ => "s3cr3t".toList
  splitTokens := fun cmd =>
    if cmd.count '\'' % 2 = 1 then ⟨[], "unbalanced quote".toList, none⟩
    else ⟨(cmd.splitOn ' ').filter (fun t => t != []), [], none⟩

/-- Collaborators as in `exampleEnv`, except that the call of the transport made
after exactly two earlier calls times out: for an anonymous poll the send of the
results placeholder, for a public poll the second reaction. -/
def flakyEnv : Env :=
  { exampleEnv with
    sendMessageByConvID := fun tr _ _ =>
      if tr.length = 2 then .failed "timeout".toList else .sent (some (100 + tr.length))
    reactByConvID := fun tr _ _ _ =>
      if tr.length = 2 then .failed "timeout".toList else .sent none }

/-! ## gcalbot: Go's `time` package, as far as `util.go` uses it -/

/-- Go `*time.Location`, by what `Location.lookup` gives for an instant in Unix
seconds: the abbreviation of the zone in effect and its offset in seconds east
of UTC. -/
structure Location where
  lookup : Int → GoString × Int

/-- Go `time.UTC`. -/
def utc : Location := ⟨fun _ => ("UTC".toList, 0)⟩

/-- Go `time.Time`, to the second: the instant in Unix seconds and the location
it is shown in.  (The layouts of `util.go` show nothing finer than minutes, and
Go keeps the seconds of an instant rounded down.) -/
structure Time where
  sec : Int
  loc : Location

/-- The zero value `time.Time{}`: January 1 of year 1, 00:00:00 UTC. -/
def Time.zero : Time := ⟨-62135596800, utc⟩

/-- Go `Time.In`. -/
def Time.In (t : Time) (loc : Location) : Time := ⟨t.sec, loc⟩

/-- Go `Time.Add` for a duration of whole seconds. -/
def Time.addSeconds (t : Time) (d : Int) : Time := ⟨t.sec + d, t.loc⟩

/-- Go `isLeap`. -/
def isLeap (year : Int) : Bool :=
  year % 4 = 0 && (year % 100 != 0 || year % 400 = 0)

/-- Go's table `daysBefore`: the days of a non-leap year before each month. -/
def daysBefore : List Nat := [0, 31, 59, 90, 120, 151, 181, 212, 243, 273, 304, 334, 365]

/-- Go `daysIn`. -/
def daysIn (month : Nat) (year : Int) : Nat :=
  if month = 2 && isLeap year then 29
  else daysBefore.getD month 0 - daysBefore.getD (month - 1) 0

/-- Go `daysSinceEpoch`, counted from January 1 of year 1 (Go counts from the
first day of a year that is 1 modulo 400, far in the past; the two counts differ
by a whole number of 400-year cycles). -/
def daysSinceEpoch (year : Int) : Int :=
  let y := year - 1
  let n := y / 400
  let y := y - 400 * n
  let d := 146097 * n
  let n := y / 100
  let y := y - 100 * n
  let d := d + 36524 * n
  let n := y / 4
  let y := y - 4 * n
  let d := d + 1461 * n
  d + 365 * y

/-- The days from January 1 of year 1 to January 1, 1970. -/
def unixEpochDays : Int := 719162

/-- The day number, counted from January 1 of year 1, of a date, as Go's
`time.Date` computes it. -/
def dateToDays (year : Int) (month day : Nat) : Int :=
  daysSinceEpoch year + (daysBefore.getD (month - 1) 0 : Nat) +
    (if isLeap year && 3 ≤ month then 1 else 0) + ((day : Int) - 1)

/-- Go `time.Date(year, month, day, 0, 0, 0, 0, time.UTC)`. -/
def dateUTC (year : Int) (month day : Nat) : Time :=
  ⟨(dateToDays year month day - unixEpochDays) * 86400, utc⟩

/-- The seconds since January 1 of year 1, 00:00:00, on the clock of the
location of `t` (Go `Time.abs`, from a different origin). -/
def Time.abs (t : Time) : Int :=
  t.sec + (t.loc.lookup t.sec).2 + unixEpochDays * 86400

/-- The day number of `t`, counted from January 1 of year 1, in its location. -/
def Time.days (t : Time) : Int := t.abs / 86400

/-- Go `absDate(abs, false)`: the year of a day number and the day within that
year, counted from 0. -/
def absYearDay (days : Int) : Int × Nat :=
  let n := days / 146097
  let y := 400 * n
  let d := days - 146097 * n
  let n := d / 36524
  let n := n - n / 4
  let y := y + 100 * n
  let d := d - 36524 * n
  let n := d / 1461
  let y := y + 4 * n
  let d := d - 1461 * n
  let n := d / 365
  let n := n - n / 4
  let y := y + n
  let d := d - 365 * n
  (y + 1, d.toNat)

/-- The second half of Go `absDate`: month and day of month of the day `yday`
(counted from 0) of a leap or non-leap year. -/
def yearDayToDate (leap : Bool) (yday : Nat) : Nat × Nat :=
  if leap && yday = 31 + 29 - 1 then (2, 29)
  else
    let day := if leap && yday > 31 + 29 - 1 then yday - 1 else yday
    let month := day / 31
    let e := daysBefore.getD (month + 1) 0
    if day ≥ e then (month + 2, day - e + 1)
    else (month + 1, day - daysBefore.getD month 0 + 1)

/-- Go `absDate(abs, true)`: year, month and day of a day number. -/
def absDate (days : Int) : Int × Nat × Nat :=
  let yd := absYearDay days
  let md := yearDayToDate (isLeap yd.1) yd.2
  (yd.1, md.1, md.2)

/-- The day within its year, counted from 0, of day `day` of month `month`. -/
def yearDay (leap : Bool) (month day : Nat) : Nat :=
  daysBefore.getD (month - 1) 0 + (if leap && 3 ≤ month then 1 else 0) + (day - 1)

/-- Go `Time.Date`. -/
def Time.date (t : Time) : Int × Nat × Nat := absDate t.days

/-- Go `Time.Weekday`, Sunday being 0. -/
def Time.weekday (t : Time) : Nat := ((t.days + 1) % 7).toNat

/-- Go `Time.Hour`. -/
def Time.hour (t : Time) : Nat := ((t.abs % 86400) / 3600).toNat

/-- Go `Time.Minute`. -/
def Time.minute (t : Time) : Nat := (((t.abs % 86400) % 3600) / 60).toNat

/-- Go `appendInt`: the decimal digits of `x`, padded with zeros to `width`
digits, after a minus sign when `x` is negative. -/
def appendInt (x : Int) (width : Nat) : GoString :=
  let digits := Nat.toDigits 10 x.natAbs
  (if x < 0 then ['-'] else []) ++ List.replicate (width - digits.length) '0' ++ digits

/-- The first three letters of Go's names of the days. -/
def shortDayNames : List GoString :=
  ["Sun".toList, "Mon".toList, "Tue".toList, "Wed".toList, "Thu".toList, "Fri".toList,
   "Sat".toList]

/-- The first three letters of Go's names of the months. -/
def shortMonthNames : List GoString :=
  ["Jan".toList, "Feb".toList, "Mar".toList, "Apr".toList, "May".toList, "Jun".toList,
   "Jul".toList, "Aug".toList, "Sep".toList, "Oct".toList, "Nov".toList, "Dec".toList]

/-- The pieces Go's `Time.Format` cuts the layouts of `util.go` into. -/
inductive Chunk where
  /-- Text copied as it is. -/
  | lit (s : GoString)
  /-- Layout `Mon`. -/
  | stdWeekDay
  /-- Layout `Jan`. -/
  | stdMonth
  /-- Layout `2`. -/
  | stdDay
  /-- Layout `2006`. -/
  | stdLongYear
  /-- Layout `15`. -/
  | stdHour
  /-- Layout `3`. -/
  | stdHour12
  /-- Layout `04`. -/
  | stdZeroMinute
  /-- Layout `pm`. -/
  | stdpm
  /-- Layout `MST`. -/
  | stdTZ

/-- What `Time.Format` writes for one piece of a layout. -/
def Time.formatChunk (t : Time) : Chunk → GoString
  | .lit s => s
  | .stdWeekDay => shortDayNames.getD t.weekday []
  | .stdMonth => shortMonthNames.getD (t.date.2.1 - 1) []
  | .stdDay => appendInt t.date.2.2 0
  | .stdLongYear => appendInt t.date.1 4
  | .stdHour => appendInt t.hour 2
  | .stdHour12 => appendInt (if t.hour % 12 = 0 then 12 else t.hour % 12) 0
  | .stdZeroMinute => appendInt t.minute 2
  | .stdpm => if t.hour ≥ 12 then "pm".toList else "am".toList
  | .stdTZ =>
    let name := (t.loc.lookup t.sec).1
    let offset := (t.loc.lookup t.sec).2
    if name ≠ [] then name
    else
      let zone := Int.tdiv offset 60
      let sign := if zone < 0 then '-' else '+'
      let zone := if zone < 0 then -zone else zone
      sign :: (appendInt (Int.tdiv zone 60) 2 ++ appendInt (Int.tmod zone 60) 2)

/-- Go `Time.Format`, on a layout given by its pieces. -/
def Time.format (t : Time) (layout : List Chunk) : GoString :=
  layout.flatMap t.formatChunk

/-- Layout `"Mon Jan 2, 2006"`. -/
def layoutDateYear : List Chunk :=
  [.stdWeekDay, .lit " ".toList, .stdMonth, .lit " ".toList, .stdDay, .lit ", ".toList,
   .stdLongYear]

/-- Layout `"Mon Jan 2"`. -/
def layoutDate : List Chunk :=
  [.stdWeekDay, .lit " ".toList, .stdMonth, .lit " ".toList, .stdDay]

/-- Layout `"15:04"`. -/
def layout24 : List Chunk := [.stdHour, .lit ":".toList, .stdZeroMinute]

/-- Layout `"3pm"`. -/
def layoutHour : List Chunk := [.stdHour12, .stdpm]

/-- Layout `"3:04pm"`. -/
def layoutHourMinute : List Chunk := [.stdHour12, .lit ":".toList, .stdZeroMinute, .stdpm]

/-- Layout `"MST"`. -/
def layoutZone : List Chunk := [.stdTZ]

/-- Go `isDigit`. -/
def isDigit (c : Char) : Bool := '0' ≤ c && c ≤ '9'

/-- The value of a decimal digit. -/
def digitVal (c : Char) : Nat := c.toNat - '0'.toNat

/-- Go `time.Parse(AllDayDateFormat, value)` with `AllDayDateFormat =
"2006-01-02"`, as year, month and day: four digits, `-`, two digits, `-`, two
digits and nothing more, the month in 1..12 and the day in 1..`daysIn`. -/
def parseAllDayDate (value : GoString) : Option (Int × Nat × Nat) :=
  match value with
  | [y1, y2, y3, y4, s1, m1, m2, s2, d1, d2] =>
    if [y1, y2, y3, y4, m1, m2, d1, d2].all isDigit && s1 = '-' && s2 = '-' then
      let year : Int := (digitVal y1 * 1000 + digitVal y2 * 100 + digitVal y3 * 10 + digitVal y4 : Nat)
      let month := digitVal m1 * 10 + digitVal m2
      let day := digitVal d1 * 10 + digitVal d2
      if month ≤ 0 || 12 < month then none
      else if day < 1 || day > daysIn month year then none
      else some (year, month, day)
    else none
  | _ => none

/-! ## gcalbot: `util.go` -/

/-- Go `calendar.EventDateTime`. -/
structure EventDateTime where
  Date : GoString
  DateTime : GoString
  TimeZone : GoString
  deriving DecidableEq, Repr

/-- The errors of `ParseTime`. -/
inductive CalErr where
  /-- Value `errors.New("empty dates")`. -/
  | emptyDates
  /-- The error of `time.Parse(layout, value)`. -/
  | parseError (layout value : GoString)
  /-- Value `fmt.Errorf("invalid dates: start: %+v, end: %+v", start, end)`. -/
  | invalidDates (startDateTime endDateTime : EventDateTime)
  deriving DecidableEq, Repr

/-- The four results of `ParseTime`. -/
structure ParseTimeResult where
  start : Time
  endTime : Time
  isAllDay : Bool
  err : Option CalErr

/-- Go `ParseTime`.  The first argument stands for `time.Parse(time.RFC3339, ·)`
of Go's library, of which only this is used: it yields a `Time` or fails. -/
def ParseTime (parseRFC3339 : GoString → Option Time)
    (startDateTime endDateTime : Option EventDateTime) : ParseTimeResult :=
  match startDateTime, endDateTime with
  | some s, some e =>
    if s.DateTime ≠ [] && e.DateTime ≠ [] then
      match parseRFC3339 s.DateTime with
      | none => ⟨Time.zero, Time.zero, false,
          some (.parseError "2006-01-02T15:04:05Z07:00".toList s.DateTime)⟩
      | some start =>
        match parseRFC3339 e.DateTime with
        | none => ⟨start, Time.zero, false,
            some (.parseError "2006-01-02T15:04:05Z07:00".toList e.DateTime)⟩
        | some endTime => ⟨start, endTime, false, none⟩
    else if s.Date ≠ [] && e.Date ≠ [] then
      match parseAllDayDate s.Date with
      | none => ⟨Time.zero, Time.zero, true, some (.parseError "2006-01-02".toList s.Date)⟩
      | some (sy, sm, sd) =>
        match parseAllDayDate e.Date with
        | none => ⟨dateUTC sy sm sd, Time.zero, true,
            some (.parseError "2006-01-02".toList e.Date)⟩
        | some (ey, em, ed) =>
          ⟨dateUTC sy sm sd, (dateUTC ey em ed).addSeconds (-24 * 3600), true, none⟩
    else ⟨Time.zero, Time.zero, false, some (.invalidDates s e)⟩
  | _, _ => ⟨Time.zero, Time.zero, false, some .emptyDates⟩

/-- The clock time of lines 80-96. -/
def clockText (t : Time) (isAllDay format24HourTime : Bool) : GoString :=
  if !isAllDay then
    if format24HourTime then t.format layout24
    else if t.minute = 0 then t.format layoutHour
    else t.format layoutHourMinute
  else []

/-- Go `FormatTimeRange`. -/
def FormatTimeRange (parseRFC3339 : GoString → Option Time)
    (startDateTime endDateTime : Option EventDateTime) (timezone : Location)
    (format24HourTime : Bool) : Except CalErr GoString :=
  let r := ParseTime parseRFC3339 startDateTime endDateTime
  match r.err with
  | some err => .error err
  | none =>
    let isAllDay := r.isAllDay
    let start := if !isAllDay then r.start.In timezone else r.start
    let endTime := if !isAllDay then r.endTime.In timezone else r.endTime
    let startTime := clockText start isAllDay format24HourTime
    let endClock := clockText endTime isAllDay format24HourTime
    if start.date.1 = endTime.date.1 && start.date.2.1 = endTime.date.2.1 &&
        start.date.2.2 = endTime.date.2.2 then
      if isAllDay then .ok (start.format layoutDateYear)
      else .ok (start.format layoutDateYear ++ " ".toList ++ startTime ++ " - ".toList ++
        endClock ++ " (".toList ++ start.format layoutZone ++ ")".toList)
    else if start.date.1 = endTime.date.1 then
      if isAllDay then
        .ok (start.format layoutDate ++ " - ".toList ++ endTime.format layoutDateYear)
      else .ok (start.format layoutDate ++ " ".toList ++ startTime ++ " - ".toList ++
        endTime.format layoutDateYear ++ " ".toList ++ endClock ++ " (".toList ++
        start.format layoutZone ++ ")".toList)
    else
      if isAllDay then
        .ok (start.format layoutDateYear ++ " - ".toList ++ endTime.format layoutDateYear)
      else .ok (start.format layoutDateYear ++ " ".toList ++ startTime ++ " - ".toList ++
        endTime.format layoutDateYear ++ " ".toList ++ endClock ++ " (".toList ++
        start.format layoutZone ++ ")".toList)

/-- A parser of the strict RFC 3339 format with whole seconds,
`YYYY-MM-DDTHH:MM:SS` followed by `Z` or a numeric offset `+HH:MM` or `-HH:MM`:
one function that can stand for `time.Parse(time.RFC3339, ·)` on such text.  The
result is in a location with the offset of the text and no abbreviation. -/
def parseRFC3339Strict (value : GoString) : Option Time :=
  match parseAllDayDate (value.take 10), value.drop 10 with
  | some (y, m, d), tc :: h1 :: h2 :: c1 :: n1 :: n2 :: c2 :: s1 :: s2 :: zone =>
    if tc = 'T' && c1 = ':' && c2 = ':' && [h1, h2, n1, n2, s1, s2].all isDigit then
      let hh := digitVal h1 * 10 + digitVal h2
      let mm := digitVal n1 * 10 + digitVal n2
      let ss := digitVal s1 * 10 + digitVal s2
      if hh > 23 || mm > 59 || ss > 59 then none
      else
        let wall : Int := (dateUTC y m d).sec + (hh * 3600 + mm * 60 + ss : Nat)
        match zone with
        | ['Z'] => some ⟨wall, utc⟩
        | [sg, o1, o2, c3, o3, o4] =>
          if (sg = '+' || sg = '-') && c3 = ':' && [o1, o2, o3, o4].all isDigit then
            let oh := digitVal o1 * 10 + digitVal o2
            let om := digitVal o3 * 10 + digitVal o4
            if oh > 23 || om > 59 then none
            else
              let off : Int := if sg = '-' then -((oh * 3600 + om * 60 : Nat) : Int)
                else ((oh * 3600 + om * 60 : Nat) : Int)
              some ⟨wall - off, ⟨fun _ => ([], off)⟩⟩
          else none
        | _ => none
    else none
  | _, _ => none

/-- The location of an eastern-standard-time zone without daylight saving. -/
def est : Location := ⟨fun _ => ("EST".toList, -18000)⟩

/-- The clock time as the claim words it: the hour on the 12-hour clock, then
`:MM` exactly when the minute is not zero, then `am` or `pm`. -/
def twelveHourClock (t : Time) : GoString :=
  appendInt (if t.hour % 12 = 0 then 12 else t.hour % 12) 0 ++
    (if t.minute = 0 then [] else ':' :: appendInt t.minute 2) ++
    (if t.hour ≥ 12 then "pm".toList else "am".toList)

/-- An event date with only the field `Date` set. -/
def allDay (date : String) : EventDateTime := ⟨date.toList, [], []⟩

/-- An event date with only the field `DateTime` set. -/
def timed (dateTime : String) : EventDateTime := ⟨[], dateTime.toList, []⟩

/-! ## Lemmas on percent escaping -/

theorem replaceAllAux_double (s : GoString) :
    replaceAllAux ['%'] ['%', '%'] 0 s = doublePercents s := by
  induction s with
  | nil => rfl
  | cons c cs ih =>
    by_cases hc : c = '%'
    · subst hc
      simp [replaceAllAux, doublePercents, ih, List.isPrefixOf]
    · have hc2 : ¬ '%' = c := fun h => hc h.symm
      simp [replaceAllAux, doublePercents, ih, List.isPrefixOf, hc, hc2]

theorem replaceAllAux_single (s : GoString) :
    replaceAllAux ['%', '%'] ['%'] 0 (doublePercents s) = s := by
  induction s with
  | nil => rfl
  | cons c cs ih =>
    by_cases hc : c = '%'
    · subst hc
      simp [replaceAllAux, doublePercents, ih, List.isPrefixOf]
    · have hc2 : ¬ '%' = c := fun h => hc h.symm
      simp [replaceAllAux, doublePercents, ih, List.isPrefixOf, hc, hc2]

theorem replaceAll_percent_eq (s : GoString) :
    replaceAll s "%".toList "%%".toList = doublePercents s :=
  replaceAllAux_double s

theorem replaceAll_doublePercents (s : GoString) :
    replaceAll (doublePercents s) "%%".toList "%".toList = s :=
  replaceAllAux_single s

theorem percentsPaired_cons_of_ne (c : Char) (l : GoString) (hc : c ≠ '%') :
    percentsPaired (c :: l) = percentsPaired l := by
  cases l with
  | nil => simp [percentsPaired, hc]
  | cons d rest => simp [percentsPaired, hc]

theorem percentsPaired_doublePercents (s : GoString) :
    percentsPaired (doublePercents s) = true := by
  induction s with
  | nil => rfl
  | cons c cs ih =>
    by_cases hc : c = '%'
    · subst hc
      simp [doublePercents, percentsPaired, ih]
    · simp only [doublePercents, hc, if_false]
      rw [percentsPaired_cons_of_ne c _ hc]
      exact ih

/-! ## Lemmas on the loops of the poll engine -/

theorem choicesLoop_eq (h : Handler) (convID : ConvIDStr) (promptMsgID : MessageID)
    (options : List GoString) (index : Nat) (body : GoString) :
    choicesLoop h convID promptMsgID index options body =
      body ++ (options.enumFrom index).flatMap (fun p =>
        choiceEntry (h.numberToEmoji ((p.1 : Int) + 1)) p.2
          (generateVoteLink h convID promptMsgID ((p.1 : Int) + 1))) := by
  induction options generalizing index body with
  | nil => simp [choicesLoop]
  | cons o rest ih => simp [choicesLoop, ih, List.enumFrom]

theorem optionsLoop_eq (h : Handler) (options : List GoString) (index : Nat) (body : GoString) :
    optionsLoop h index options body =
      body ++ (options.enumFrom index).flatMap (fun p =>
        h.numberToEmoji ((p.1 : Int) + 1) ++ "  ".toList ++ p.2 ++ "\n".toList) := by
  induction options generalizing index body with
  | nil => simp [optionsLoop]
  | cons o rest ih => simp [optionsLoop, ih, List.enumFrom]

theorem reactLoop_reactions (h : Handler) (env : Env) (convID : ConvIDStr) (msgID : MessageID)
    (options : List GoString) (index : Nat) (tr : List Event) :
    (reactLoop h env convID msgID index options tr).filterMap Event.reaction? =
      (options.enumFrom index).map (fun p =>
        (convID, msgID, h.numberToEmoji ((p.1 : Int) + 1))) := by
  induction options generalizing index tr with
  | nil => simp [reactLoop]
  | cons o rest ih =>
    simp only [reactLoop, List.enumFrom, List.map_cons, List.filterMap_append]
    rw [ih]
    split <;> simp [Event.reaction?]

theorem reactLoop_no_send (h : Handler) (env : Env) (convID : ConvIDStr) (msgID : MessageID)
    (options : List GoString) (index : Nat) (tr : List Event) :
    ∀ e ∈ reactLoop h env convID msgID index options tr,
      e.isSend = false ∧ e.isCreatePoll = false := by
  induction options generalizing index tr with
  | nil => simp [reactLoop]
  | cons o rest ih =>
    intro e he
    simp only [reactLoop, List.mem_append] at he
    rcases he with he | he
    · split at he <;> simp at he <;> rcases he with rfl | rfl <;>
        simp [Event.isSend, Event.isCreatePoll]
    · exact ih _ _ e he

theorem infix_flatMap_of_mem {α β : Type} (f : α → List β) (l : List α) (a : α)
    (ha : a ∈ l) : f a <:+: l.flatMap f := by
  obtain ⟨s, t, rfl⟩ := List.append_of_mem ha
  exact ⟨s.flatMap f, t.flatMap f, by simp⟩

theorem mem_enum_bounds (options : List GoString) (p : Nat × GoString)
    (hp : p ∈ options.enum) :
    (1 : Int) ≤ (p.1 : Int) + 1 ∧ (p.1 : Int) + 1 ≤ (options.length : Int) := by
  have := List.fst_lt_of_mem_enum hp
  omega

/-- The shape of a run of `generateAnonymousPoll` that reaches `db.CreatePoll`. -/
theorem generateAnonymousPoll_persists_once_aux (h : Handler) (env : Env) (tr : List Event)
    (convID : ConvIDStr) (msgID : MessageID) (prompt : GoString) (options : List GoString)
    (hp : ∃ e ∈ (generateAnonymousPoll h env tr convID msgID prompt options).2,
      e.isCreatePoll = true) :
    ∃ (promptMsgID resultMsgID : MessageID) (choicesID : Option MessageID)
      (dbRes : Option GoString),
      (generateAnonymousPoll h env tr convID msgID prompt options).2 =
        [ Event.send convID (anonymousPromptBody prompt) (.sent (some promptMsgID)),
          Event.send convID (choicesLoop h convID promptMsgID 0 options []) (.sent choicesID),
          Event.send convID resultsPlaceholder (.sent (some resultMsgID)),
          Event.createPoll convID promptMsgID resultMsgID (options.length : Int) dbRes ] ∧
      "No votes yet".toList <:+: resultsPlaceholder ∧
      env.sendMessageByConvID tr convID (anonymousPromptBody prompt) =
        .sent (some promptMsgID) ∧
      ((generateAnonymousPoll h env tr convID msgID prompt options).2.filter
        Event.isCreatePoll).length = 1 ∧
      ((generateAnonymousPoll h env tr convID msgID prompt options).1 = none ↔
        dbRes = none) := by
  rcases h1 : env.sendMessageByConvID tr convID (anonymousPromptBody prompt)
    with err | (_ | pid)
  · simp [generateAnonymousPoll, h1, Event.isCreatePoll] at hp
  · simp [generateAnonymousPoll, h1, Event.isCreatePoll] at hp
  rcases h2 : env.sendMessageByConvID
      (tr ++ [Event.send convID (anonymousPromptBody prompt) (.sent (some pid))]) convID
      (choicesLoop h convID pid 0 options []) with err | cid
  · simp [generateAnonymousPoll, h1, h2, Event.isCreatePoll] at hp
  rcases h3 : env.sendMessageByConvID
      (tr ++ [Event.send convID (anonymousPromptBody prompt) (.sent (some pid)),
        Event.send convID (choicesLoop h convID pid 0 options []) (.sent cid)])
      convID resultsPlaceholder with err | (_ | rid)
  · simp [generateAnonymousPoll, h1, h2, h3, Event.isCreatePoll] at hp
  · simp [generateAnonymousPoll, h1, h2, h3, Event.isCreatePoll] at hp
  refine ⟨pid, rid, cid, env.createPoll
      (tr ++ [Event.send convID (anonymousPromptBody prompt) (.sent (some pid)),
        Event.send convID (choicesLoop h convID pid 0 options []) (.sent cid),
        Event.send convID resultsPlaceholder (.sent (some rid))])
      convID pid rid (options.length : Int), ?_, by decide, rfl, ?_, ?_⟩
  · simp only [generateAnonymousPoll, h1, h2, h3]
    split <;> simp_all
  · simp only [generateAnonymousPoll, h1, h2, h3]
    split <;> simp [Event.isCreatePoll]
  · simp only [generateAnonymousPoll, h1, h2, h3]
    split <;> simp_all

/-- No run of `generatePoll` calls `db.CreatePoll`, and only its first call
sends a message. -/
theorem generatePoll_events (h : Handler) (env : Env) (tr : List Event) (convID : ConvIDStr)
    (msgID : MessageID) (prompt : GoString) (options : List GoString) :
    ∃ rest, (generatePoll h env tr convID msgID prompt options).2 =
        Event.send convID (pollBody h prompt options)
          (env.sendMessageByConvID tr convID (pollBody h prompt options)) :: rest ∧
      (∀ e ∈ rest, e.isSend = false ∧ e.isCreatePoll = false) ∧
      (∀ id, env.sendMessageByConvID tr convID (pollBody h prompt options) = .sent (some id) →
        rest.filterMap Event.reaction? =
          options.enum.map (fun p => (convID, id, h.numberToEmoji ((p.1 : Int) + 1)))) := by
  rcases hr : env.sendMessageByConvID tr convID (pollBody h prompt options) with err | (_ | id)
  · exact ⟨[], by simp [generatePoll, hr], by simp, by simp⟩
  · exact ⟨[], by simp [generatePoll, hr], by simp, by simp⟩
  · refine ⟨reactLoop h env convID id 0 options
      (tr ++ [Event.send convID (pollBody h prompt options) (.sent (some id))]), ?_, ?_, ?_⟩
    · simp [generatePoll, hr]
    · exact reactLoop_no_send h env convID id options 0 _
    · intro id2 hid
      cases hid
      rw [reactLoop_reactions]
      rfl

/-- No run of `generatePoll` calls `db.CreatePoll`. -/
theorem generatePoll_no_createPoll (h : Handler) (env : Env) (tr : List Event)
    (convID : ConvIDStr) (msgID : MessageID) (prompt : GoString) (options : List GoString) :
    ∀ e ∈ (generatePoll h env tr convID msgID prompt options).2, e.isCreatePoll = false := by
  obtain ⟨rest, hrun, hrest, -⟩ := generatePoll_events h env tr convID msgID prompt options
  intro e he
  rw [hrun] at he
  rcases List.mem_cons.mp he with rfl | he
  · rfl
  · exact (hrest e he).2

/-- Every `CreatePoll` call of `generateAnonymousPoll` stores the number of options. -/
theorem generateAnonymousPoll_createPoll_count (h : Handler) (env : Env) (tr : List Event)
    (convID : ConvIDStr) (msgID : MessageID) (prompt : GoString) (options : List GoString)
    (c : ConvIDStr) (m r : MessageID) (n : Int) (d : Option GoString)
    (hmem : Event.createPoll c m r n d ∈
      (generateAnonymousPoll h env tr convID msgID prompt options).2) :
    n = (options.length : Int) := by
  obtain ⟨pid, rid, cid, dbRes, hshape, -, -, -, -⟩ :=
    generateAnonymousPoll_persists_once_aux h env tr convID msgID prompt options ⟨_, hmem, rfl⟩
  rw [hshape] at hmem
  simp at hmem
  exact hmem.2.2.2.1

/-! ## Lemmas on dates -/

theorem clockText_timed (t : Time) :
    clockText t false false = twelveHourClock t := by
  unfold clockText twelveHourClock
  by_cases hm : t.minute = 0
  · simp [hm, Time.format, layoutHour, Time.formatChunk]
  · simp [hm, Time.format, layoutHourMinute, Time.formatChunk]

theorem dateUTC_days (year : Int) (month day : Nat) :
    (dateUTC year month day).days = dateToDays year month day := by
  simp only [Time.days, Time.abs, dateUTC, utc]
  omega

theorem dateUTC_sub_day_days (year : Int) (month day : Nat) :
    ((dateUTC year month day).addSeconds (-24 * 3600)).days =
      dateToDays year month day - 1 := by
  simp only [Time.days, Time.abs, dateUTC, utc, Time.addSeconds]
  omega

theorem isLeap_iff (year : Int) :
    isLeap year = true ↔ (year % 4 = 0 ∧ (year % 100 ≠ 0 ∨ year % 400 = 0)) := by
  simp [isLeap]

/-- The year before `year` splits into 400-year, 100-year and 4-year cycles and
single years, and `daysSinceEpoch` counts the days of each. -/
theorem daysSinceEpoch_split (year : Int) :
    ∃ a b c e : Int, year - 1 = 400 * a + 100 * b + 4 * c + e ∧
      0 ≤ b ∧ b ≤ 3 ∧ 0 ≤ c ∧ c ≤ 24 ∧ 0 ≤ e ∧ e ≤ 3 ∧
      daysSinceEpoch year = 146097 * a + 36524 * b + 1461 * c + 365 * e := by
  refine ⟨(year - 1) / 400, ((year - 1) - 400 * ((year - 1) / 400)) / 100,
    ((year - 1) - 400 * ((year - 1) / 400) -
      100 * (((year - 1) - 400 * ((year - 1) / 400)) / 100)) / 4,
    (year - 1) - 400 * ((year - 1) / 400) -
      100 * (((year - 1) - 400 * ((year - 1) / 400)) / 100) -
      4 * (((year - 1) - 400 * ((year - 1) / 400) -
      100 * (((year - 1) - 400 * ((year - 1) / 400)) / 100)) / 4), ?_, ?_, ?_, ?_, ?_, ?_, ?_, ?_⟩
  · omega
  · omega
  · omega
  · omega
  · omega
  · omega
  · omega
  · simp only [daysSinceEpoch]

theorem absYearDay_of_split (a b c e t : Int)
    (hb0 : 0 ≤ b) (hb : b ≤ 3) (hc0 : 0 ≤ c) (hc : c ≤ 24) (he0 : 0 ≤ e) (he : e ≤ 3)
    (ht0 : 0 ≤ t)
    (ht : t < 365 ∨ (t = 365 ∧ e = 3 ∧ (c ≠ 24 ∨ b = 3))) :
    absYearDay (146097 * a + 36524 * b + 1461 * c + 365 * e + t) =
      (400 * a + 100 * b + 4 * c + e + 1, t.toNat) := by
  have h1 : (146097 * a + 36524 * b + 1461 * c + 365 * e + t) / 146097 = a := by omega
  have h2 : (36524 * b + 1461 * c + 365 * e + t) / 36524 -
      (36524 * b + 1461 * c + 365 * e + t) / 36524 / 4 = b := by
    have hb4 : b = 0 ∨ b = 1 ∨ b = 2 ∨ b = 3 := by omega
    have he4 : e = 0 ∨ e = 1 ∨ e = 2 ∨ e = 3 := by omega
    rcases hb4 with rfl | rfl | rfl | rfl <;> rcases he4 with rfl | rfl | rfl | rfl <;> omega
  have h3 : (1461 * c + 365 * e + t) / 1461 = c := by
    have he4 : e = 0 ∨ e = 1 ∨ e = 2 ∨ e = 3 := by omega
    rcases he4 with rfl | rfl | rfl | rfl <;> omega
  have h4 : (365 * e + t) / 365 - (365 * e + t) / 365 / 4 = e := by
    have he4 : e = 0 ∨ e = 1 ∨ e = 2 ∨ e = 3 := by omega
    rcases he4 with rfl | rfl | rfl | rfl <;> omega
  simp only [absYearDay, h1]
  have e1 : 146097 * a + 36524 * b + 1461 * c + 365 * e + t - 146097 * a =
      36524 * b + 1461 * c + 365 * e + t := by ring
  rw [e1, h2]
  have e2 : 36524 * b + 1461 * c + 365 * e + t - 36524 * b = 1461 * c + 365 * e + t := by ring
  rw [e2, h3]
  have e3 : 1461 * c + 365 * e + t - 1461 * c = 365 * e + t := by ring
  rw [e3, h4]
  have e4 : 365 * e + t - 365 * e = t := by ring
  rw [e4]

/-- The year and the day of the year are read back from a day number. -/
theorem absYearDay_daysSinceEpoch (year : Int) (t : Nat)
    (ht : t < (if isLeap year then 366 else 365)) :
    absYearDay (daysSinceEpoch year + (t : Int)) = (year, t) := by
  obtain ⟨a, b, c, e, hy, hb0, hb, hc0, hc, he0, he, hd⟩ := daysSinceEpoch_split year
  have hleap : isLeap year = true → e = 3 ∧ (c ≠ 24 ∨ b = 3) := by
    intro hl
    rw [isLeap_iff] at hl
    have he4 : e = 0 ∨ e = 1 ∨ e = 2 ∨ e = 3 := by omega
    have hb4 : b = 0 ∨ b = 1 ∨ b = 2 ∨ b = 3 := by omega
    rcases he4 with rfl | rfl | rfl | rfl <;> rcases hb4 with rfl | rfl | rfl | rfl <;> omega
  have ht2 : (t : Int) < 365 ∨ ((t : Int) = 365 ∧ e = 3 ∧ (c ≠ 24 ∨ b = 3)) := by
    by_cases hl : isLeap year = true
    · simp only [hl, if_true] at ht
      have := hleap hl
      omega
    · simp only [hl, Bool.false_eq_true, if_false] at ht
      omega
  rw [hd, absYearDay_of_split a b c e t hb0 hb hc0 hc he0 he (by omega) ht2]
  have hyear : 400 * a + 100 * b + 4 * c + e + 1 = year := by omega
  rw [hyear]
  simp

/-- Month and day are read back from the day of the year. -/
theorem yearDayToDate_yearDay (leap : Bool) (month day : Nat) (hm1 : 1 ≤ month)
    (hm : month ≤ 12) (hd1 : 1 ≤ day)
    (hd : day ≤ (if month = 2 && leap then 29
      else daysBefore.getD month 0 - daysBefore.getD (month - 1) 0)) :
    yearDayToDate leap (yearDay leap month day) = (month, day) ∧
      yearDay leap month day < (if leap then 366 else 365) := by
  have hd31 : day ≤ 31 := by
    refine le_trans hd ?_
    cases leap <;> interval_cases month <;> decide
  revert hd
  cases leap <;> interval_cases month <;> interval_cases day <;> decide

theorem dateToDays_eq (year : Int) (month day : Nat) (hd1 : 1 ≤ day) :
    dateToDays year month day =
      daysSinceEpoch year + ((yearDay (isLeap year) month day : Nat) : Int) := by
  simp only [dateToDays, yearDay]
  split <;> push_cast <;> omega

/-- Go's `Time.Date` gives back the year, month and day that `time.Date` was
called with, for every valid date. -/
theorem absDate_dateToDays (year : Int) (month day : Nat) (hm1 : 1 ≤ month) (hm : month ≤ 12)
    (hd1 : 1 ≤ day) (hd : day ≤ daysIn month year) :
    absDate (dateToDays year month day) = (year, month, day) := by
  have htab := yearDayToDate_yearDay (isLeap year) month day hm1 hm hd1 hd
  rw [dateToDays_eq year month day hd1]
  simp only [absDate, absYearDay_daysSinceEpoch year _ htab.2, htab.1]

theorem parseAllDayDate_valid (value : GoString) (year : Int) (month day : Nat)
    (h : parseAllDayDate value = some (year, month, day)) :
    1 ≤ month ∧ month ≤ 12 ∧ 1 ≤ day ∧ day ≤ daysIn month year := by
  unfold parseAllDayDate at h
  split at h
  · split at h
    · simp only [] at h
      split at h
      · exact absurd h (by simp)
      · split at h
        · exact absurd h (by simp)
        · rename_i hmonth hday
          simp only [Option.some.injEq, Prod.mk.injEq] at h
          obtain ⟨rfl, rfl, rfl⟩ := h
          simp only [Bool.or_eq_true, decide_eq_true_eq, not_or, not_lt, not_le] at hmonth hday
          omega
    · exact absurd h (by simp)
  · exact absurd h (by simp)

theorem parseAllDayDate_ne_nil (value : GoString) (d : Int × Nat × Nat)
    (h : parseAllDayDate value = some d) : value ≠ [] := by
  intro hv
  subst hv
  simp [parseAllDayDate] at h

theorem ParseTime_all_day (parseRFC3339 : GoString → Option Time) (s e : EventDateTime)
    (ys ye : Int) (ms ds me de : Nat)
    (hnot : ¬ (s.DateTime ≠ [] ∧ e.DateTime ≠ []))
    (hs : parseAllDayDate s.Date = some (ys, ms, ds))
    (he : parseAllDayDate e.Date = some (ye, me, de)) :
    ParseTime parseRFC3339 (some s) (some e) =
      ⟨dateUTC ys ms ds, (dateUTC ye me de).addSeconds (-24 * 3600), true, none⟩ := by
  have h1 : (decide (s.DateTime ≠ []) && decide (e.DateTime ≠ [])) = false := by
    by_cases a : s.DateTime = [] <;> by_cases b : e.DateTime = [] <;> simp_all
  have h2 : (decide (s.Date ≠ []) && decide (e.Date ≠ [])) = true := by
    simp [parseAllDayDate_ne_nil _ _ hs, parseAllDayDate_ne_nil _ _ he]
  simp only [ParseTime, h1, h2, hs, he, Bool.false_eq_true, if_false, if_true]

theorem ParseTime_timed (parseRFC3339 : GoString → Option Time) (s e : EventDateTime)
    (t1 t2 : Time)
    (hs : s.DateTime ≠ []) (he : e.DateTime ≠ [])
    (h1 : parseRFC3339 s.DateTime = some t1) (h2 : parseRFC3339 e.DateTime = some t2) :
    ParseTime parseRFC3339 (some s) (some e) = ⟨t1, t2, false, none⟩ := by
  have hb : (decide (s.DateTime ≠ []) && decide (e.DateTime ≠ [])) = true := by
    simp [hs, he]
  simp only [ParseTime, hb, h1, h2, if_true]

/-! ## Claims -/

/-- C1: for every prefix, conversation, message and choice, the link returned by
`generateVoteLink` has percent characters only as adjacent pairs, and replacing
every doubled percent by a single one gives back exactly
`httpPrefix + "/pollbot/vote?=" + url.QueryEscape(NewVote(..).Encode())`. -/
theorem generateVoteLink_unescape (h : Handler) (convID : ConvIDStr) (msgID : MessageID)
    (choice : Int) :
    percentsPaired (generateVoteLink h convID msgID choice) = true ∧
    replaceAll (generateVoteLink h convID msgID choice) "%%".toList "%".toList =
      h.httpPrefix ++ "/pollbot/vote?=".toList ++
        h.queryEscape (h.encodeVote convID msgID choice) := by
  unfold generateVoteLink
  simp only [replaceAll_percent_eq]
  exact ⟨percentsPaired_doublePercents _, replaceAll_doublePercents _⟩

/-- C2: whatever the chat transport does, if one of the sends made by
`generateAnonymousPoll` fails, or the prompt send (first call) or the results
send (third call) returns no message ID, then `generateAnonymousPoll` returns an
error and makes no call of `db.CreatePoll`. -/
theorem generateAnonymousPoll_send_failure_aborts (h : Handler) (env : Env) (tr : List Event)
    (convID : ConvIDStr) (msgID : MessageID) (prompt : GoString) (options : List GoString)
    (hfail : (∃ e ∈ (generateAnonymousPoll h env tr convID msgID prompt options).2,
        e.isSendFailure = true) ∨
      ((generateAnonymousPoll h env tr convID msgID prompt options).2.get? 0).any
        Event.isSendWithoutID = true ∨
      ((generateAnonymousPoll h env tr convID msgID prompt options).2.get? 2).any
        Event.isSendWithoutID = true) :
    (generateAnonymousPoll h env tr convID msgID prompt options).1 ≠ none ∧
    ∀ e ∈ (generateAnonymousPoll h env tr convID msgID prompt options).2,
      e.isCreatePoll = false := by
  revert hfail
  unfold generateAnonymousPoll
  simp only []
  split
  · simp [Event.isCreatePoll]
  · simp [Event.isCreatePoll]
  · split
    · simp [Event.isCreatePoll]
    · split
      · simp [Event.isCreatePoll]
      · simp [Event.isCreatePoll]
      · split <;> simp_all [Event.isCreatePoll, Event.isSendFailure, Event.isSendWithoutID]

/-- Witness of C2: with a transport whose third send times out, the poll is
aborted with an error after three sends and nothing is persisted. -/
theorem generateAnonymousPoll_send_failure_aborts_witness :
    (generateAnonymousPoll exampleHandler flakyEnv [] "conv".toList 7 "Lunch?".toList
        ["Pizza".toList, "Salad".toList]).2.length = 3 ∧
    ((generateAnonymousPoll exampleHandler flakyEnv [] "conv".toList 7 "Lunch?".toList
        ["Pizza".toList, "Salad".toList]).1 ≠ none ∧
      ∀ e ∈ (generateAnonymousPoll exampleHandler flakyEnv [] "conv".toList 7 "Lunch?".toList
        ["Pizza".toList, "Salad".toList]).2, e.isCreatePoll = false) :=
  ⟨by decide,
   generateAnonymousPoll_send_failure_aborts exampleHandler flakyEnv [] "conv".toList 7
     "Lunch?".toList ["Pizza".toList, "Salad".toList] (Or.inl (by decide))⟩

/-- C3: whenever `generateAnonymousPoll` calls `db.CreatePoll`, it has made
exactly four calls: the prompt send, the choices send, the send of the results
placeholder (whose text contains `No votes yet`), all successful, and then one
`CreatePoll(convID, promptMsgID, resultMsgID, len(options))`, where
`promptMsgID` is the ID the first send returned and `resultMsgID` the ID the
third send returned; it returns nil exactly when that `CreatePoll` succeeded. -/
theorem generateAnonymousPoll_persists_once (h : Handler) (env : Env) (tr : List Event)
    (convID : ConvIDStr) (msgID : MessageID) (prompt : GoString) (options : List GoString)
    (hp : ∃ e ∈ (generateAnonymousPoll h env tr convID msgID prompt options).2,
      e.isCreatePoll = true) :
    ∃ (promptMsgID resultMsgID : MessageID) (choicesID : Option MessageID)
      (dbRes : Option GoString),
      (generateAnonymousPoll h env tr convID msgID prompt options).2 =
        [ Event.send convID (anonymousPromptBody prompt) (.sent (some promptMsgID)),
          Event.send convID (choicesLoop h convID promptMsgID 0 options []) (.sent choicesID),
          Event.send convID resultsPlaceholder (.sent (some resultMsgID)),
          Event.createPoll convID promptMsgID resultMsgID (options.length : Int) dbRes ] ∧
      "No votes yet".toList <:+: resultsPlaceholder ∧
      env.sendMessageByConvID tr convID (anonymousPromptBody prompt) =
        .sent (some promptMsgID) ∧
      ((generateAnonymousPoll h env tr convID msgID prompt options).2.filter
        Event.isCreatePoll).length = 1 ∧
      ((generateAnonymousPoll h env tr convID msgID prompt options).1 = none ↔
        dbRes = none) :=
  generateAnonymousPoll_persists_once_aux h env tr convID msgID prompt options hp

/-- Witness of C3: the poll `Lunch?` with options `Pizza` and `Salad` is
persisted with option count 2. -/
theorem generateAnonymousPoll_persists_once_witness :
    (generateAnonymousPoll exampleHandler exampleEnv [] "conv".toList 7 "Lunch?".toList
        ["Pizza".toList, "Salad".toList]).2.get? 3 =
      some (Event.createPoll "conv".toList 100 102 2 none) ∧
    ∃ (promptMsgID resultMsgID : MessageID) (choicesID : Option MessageID)
      (dbRes : Option GoString),
      (generateAnonymousPoll exampleHandler exampleEnv [] "conv".toList 7 "Lunch?".toList
          ["Pizza".toList, "Salad".toList]).2 =
        [ Event.send "conv".toList (anonymousPromptBody "Lunch?".toList)
            (.sent (some promptMsgID)),
          Event.send "conv".toList (choicesLoop exampleHandler "conv".toList promptMsgID 0
            ["Pizza".toList, "Salad".toList] []) (.sent choicesID),
          Event.send "conv".toList resultsPlaceholder (.sent (some resultMsgID)),
          Event.createPoll "conv".toList promptMsgID resultMsgID
            ((["Pizza".toList, "Salad".toList] : List GoString).length : Int) dbRes ] ∧
      "No votes yet".toList <:+: resultsPlaceholder ∧
      exampleEnv.sendMessageByConvID [] "conv".toList (anonymousPromptBody "Lunch?".toList) =
        .sent (some promptMsgID) ∧
      ((generateAnonymousPoll exampleHandler exampleEnv [] "conv".toList 7 "Lunch?".toList
          ["Pizza".toList, "Salad".toList]).2.filter Event.isCreatePoll).length = 1 ∧
      ((generateAnonymousPoll exampleHandler exampleEnv [] "conv".toList 7 "Lunch?".toList
          ["Pizza".toList, "Salad".toList]).1 = none ↔ dbRes = none) :=
  ⟨by decide,
   generateAnonymousPoll_persists_once exampleHandler exampleEnv [] "conv".toList 7
     "Lunch?".toList ["Pizza".toList, "Salad".toList] (by decide)⟩

/-- C4: when the prompt send returns the message ID `promptMsgID`, the second
call of `generateAnonymousPoll` sends the choices message, whose text is, for
the options in order, `"\n" + NumberToEmoji(i) + "  *" + option + "*\n" +
generateVoteLink(convID, promptMsgID, i) + "\n"` for i = 1..n and nothing else:
n links, the i-th option followed by the link of choice i for `convID` and
`promptMsgID`, with 1 ≤ i ≤ n; every `CreatePoll` call made has the same
`convID`, the same `promptMsgID` and option count n; and the ID of the
triggering message plays no part. -/
theorem generateAnonymousPoll_choice_links (h : Handler) (env : Env) (tr : List Event)
    (convID : ConvIDStr) (msgID : MessageID) (prompt : GoString) (options : List GoString)
    (promptMsgID : MessageID)
    (hn : 1 ≤ options.length)
    (h1 : env.sendMessageByConvID tr convID (anonymousPromptBody prompt) =
      .sent (some promptMsgID)) :
    (∃ res, (generateAnonymousPoll h env tr convID msgID prompt options).2.get? 1 =
      some (Event.send convID
        (options.enum.flatMap (fun p =>
          "\n".toList ++ h.numberToEmoji ((p.1 : Int) + 1) ++ "  *".toList ++ p.2 ++
            "*\n".toList ++ generateVoteLink h convID promptMsgID ((p.1 : Int) + 1) ++
            "\n".toList)) res)) ∧
    (∀ (i : Nat) (hi : i < options.length), ∃ body res,
      (generateAnonymousPoll h env tr convID msgID prompt options).2.get? 1 =
        some (Event.send convID body res) ∧
      (options[i] ++ "*\n".toList ++ generateVoteLink h convID promptMsgID ((i : Int) + 1) ++
        "\n".toList) <:+: body) ∧
    (options.enum.map (fun p =>
        generateVoteLink h convID promptMsgID ((p.1 : Int) + 1))).length = options.length ∧
    (∀ p ∈ options.enum,
      (1 : Int) ≤ (p.1 : Int) + 1 ∧ (p.1 : Int) + 1 ≤ (options.length : Int)) ∧
    (∀ c m r n d, Event.createPoll c m r n d ∈
        (generateAnonymousPoll h env tr convID msgID prompt options).2 →
      c = convID ∧ m = promptMsgID ∧ n = (options.length : Int) ∧ 1 ≤ n) ∧
    (∀ msgID2, generateAnonymousPoll h env tr convID msgID2 prompt options =
      generateAnonymousPoll h env tr convID msgID prompt options) := by
  have hbody : choicesLoop h convID promptMsgID 0 options [] =
      options.enum.flatMap (fun p =>
        "\n".toList ++ h.numberToEmoji ((p.1 : Int) + 1) ++ "  *".toList ++ p.2 ++
          "*\n".toList ++ generateVoteLink h convID promptMsgID ((p.1 : Int) + 1) ++
          "\n".toList) := by
    rw [choicesLoop_eq]
    simp only [List.enum, List.nil_append]
    rfl
  have hsecond : ∃ res, (generateAnonymousPoll h env tr convID msgID prompt options).2.get? 1 =
      some (Event.send convID (choicesLoop h convID promptMsgID 0 options []) res) := by
    rcases h2 : env.sendMessageByConvID
        (tr ++ [Event.send convID (anonymousPromptBody prompt) (.sent (some promptMsgID))])
        convID (choicesLoop h convID promptMsgID 0 options []) with err | cid
    · exact ⟨.failed err, by simp [generateAnonymousPoll, h1, h2]⟩
    · refine ⟨.sent cid, ?_⟩
      simp only [generateAnonymousPoll, h1, h2]
      split
      · rfl
      · rfl
      · split <;> rfl
  refine ⟨?_, ?_, by simp, fun p hp => mem_enum_bounds options p hp, ?_, fun _ => rfl⟩
  · rw [← hbody]
    exact hsecond
  · intro i hi
    obtain ⟨res, hres⟩ := hsecond
    refine ⟨_, res, hres, ?_⟩
    rw [hbody]
    have hmem : (i, options[i]) ∈ options.enum :=
      List.mk_mem_enum_iff_getElem?.mpr (List.getElem?_eq_getElem hi)
    refine List.IsInfix.trans ?_
      (infix_flatMap_of_mem (fun p : Nat × GoString =>
        "\n".toList ++ h.numberToEmoji ((p.1 : Int) + 1) ++ "  *".toList ++ p.2 ++
          "*\n".toList ++ generateVoteLink h convID promptMsgID ((p.1 : Int) + 1) ++
          "\n".toList) options.enum (i, options[i]) hmem)
    exact ⟨"\n".toList ++ h.numberToEmoji ((i : Int) + 1) ++ "  *".toList, [],
      by simp only [List.append_assoc, List.append_nil]⟩
  · intro c m r n d hmem
    have hex : ∃ e ∈ (generateAnonymousPoll h env tr convID msgID prompt options).2,
        e.isCreatePoll = true := ⟨_, hmem, rfl⟩
    obtain ⟨pid, rid, cid, dbRes, hshape, -, hfirst, -, -⟩ :=
      generateAnonymousPoll_persists_once_aux h env tr convID msgID prompt options hex
    rw [h1] at hfirst
    cases hfirst
    rw [hshape] at hmem
    simp at hmem
    obtain ⟨rfl, rfl, -, rfl, -⟩ := hmem
    exact ⟨rfl, rfl, rfl, by omega⟩

/-- Witness of C4: for the poll `Lunch?` with options `Pizza` and `Salad`, whose
prompt message gets ID 100, the choices message is the two entries with the
links of choices 1 and 2 for conversation `conv` and message 100. -/
theorem generateAnonymousPoll_choice_links_witness :
    (1 ≤ (["Pizza".toList, "Salad".toList] : List GoString).length ∧
      exampleEnv.sendMessageByConvID [] "conv".toList (anonymousPromptBody "Lunch?".toList) =
        .sent (some 100)) ∧
    (generateAnonymousPoll exampleHandler exampleEnv [] "conv".toList 7 "Lunch?".toList
        ["Pizza".toList, "Salad".toList]).2.get? 1 =
      some (Event.send "conv".toList
        ("\n:1:  *Pizza*\nhttps://bots.example/pollbot/vote?=conv%%3A100%%3A1\n" ++
         "\n:2:  *Salad*\nhttps://bots.example/pollbot/vote?=conv%%3A100%%3A2\n").toList
        (.sent (some 101))) ∧
    (∃ res, (generateAnonymousPoll exampleHandler exampleEnv [] "conv".toList 7 "Lunch?".toList
        ["Pizza".toList, "Salad".toList]).2.get? 1 =
      some (Event.send "conv".toList
        ((["Pizza".toList, "Salad".toList] : List GoString).enum.flatMap (fun p =>
          "\n".toList ++ exampleHandler.numberToEmoji ((p.1 : Int) + 1) ++ "  *".toList ++ p.2 ++
            "*\n".toList ++ generateVoteLink exampleHandler "conv".toList 100 ((p.1 : Int) + 1) ++
            "\n".toList)) res)) :=
  ⟨⟨by decide, by decide⟩, by decide,
   (generateAnonymousPoll_choice_links exampleHandler exampleEnv [] "conv".toList 7
     "Lunch?".toList ["Pizza".toList, "Salad".toList] 100 (by decide) (by decide)).1⟩

/-- C5: `handleLogin` calls `httpSrv.LoginToken` or sends a message only if the
conversation name is exactly `<username>,<bot>` or `<bot>,<username>`; for every
other name it makes no call at all.  When the name is one of the two, it issues
the token for `username` and then sends to `username`, by TLF name, the login
text ending in `httpPrefix + "/pollbot/login?token=<token>&username=<username>"`,
and apart from these two calls it only logs. -/
theorem handleLogin_direct_conversation_only (h : Handler) (env : Env) (tr : List Event)
    (convName username : GoString) :
    ((∃ e ∈ handleLogin h env tr convName username,
        e.isLoginToken = true ∨ e.isSend = true) →
      convName = username ++ ",".toList ++ h.botUsername ∨
      convName = h.botUsername ++ ",".toList ++ username) ∧
    (¬ (convName = username ++ ",".toList ++ h.botUsername ∨
        convName = h.botUsername ++ ",".toList ++ username) →
      handleLogin h env tr convName username = []) ∧
    ((convName = username ++ ",".toList ++ h.botUsername ∨
        convName = h.botUsername ++ ",".toList ++ username) →
      ∃ token res,
        token = env.loginToken tr username ∧
        (handleLogin h env tr convName username).take 2 =
          [ Event.loginToken username token,
            Event.sendTlf username
              (loginIntro ++ (h.httpPrefix ++ "/pollbot/login?token=".toList ++ token ++
                "&username=".toList ++ username)) res ] ∧
        ∀ e ∈ (handleLogin h env tr convName username).drop 2,
          e.isLoginToken = false ∧ e.isSend = false) := by
  by_cases hc : convName = username ++ ",".toList ++ h.botUsername ∨
      convName = h.botUsername ++ ",".toList ++ username
  · refine ⟨fun _ => hc, fun hn => absurd hc hn, fun _ => ?_⟩
    have hb : (!(convName == username ++ ",".toList ++ h.botUsername ||
        convName == h.botUsername ++ ",".toList ++ username)) = false := by
      rcases hc with hc | hc <;> simp [hc]
    have hrun : handleLogin h env tr convName username =
        [ Event.loginToken username (env.loginToken tr username),
          Event.sendTlf username (loginIntro ++ loginLink h (env.loginToken tr username) username)
            (env.sendMessageByTlfName
              (tr ++ [Event.loginToken username (env.loginToken tr username)]) username
              (loginIntro ++ loginLink h (env.loginToken tr username) username)) ] ++
        (handleLogin h env tr convName username).drop 2 ∧
        ∀ e ∈ (handleLogin h env tr convName username).drop 2,
          e.isLoginToken = false ∧ e.isSend = false := by
      rcases hr : env.sendMessageByTlfName
          (tr ++ [Event.loginToken username (env.loginToken tr username)]) username
          (loginIntro ++ loginLink h (env.loginToken tr username) username) with err | id
      · simp only [handleLogin, hb, hr, Bool.false_eq_true, if_false]
        simp [Event.isLoginToken, Event.isSend]
      · simp only [handleLogin, hb, hr, Bool.false_eq_true, if_false]
        simp [Event.isLoginToken, Event.isSend]
    refine ⟨env.loginToken tr username, env.sendMessageByTlfName
      (tr ++ [Event.loginToken username (env.loginToken tr username)]) username
      (loginIntro ++ loginLink h (env.loginToken tr username) username), rfl, ?_, hrun.2⟩
    conv_lhs => rw [hrun.1]
    rfl
  · have hb : (!(convName == username ++ ",".toList ++ h.botUsername ||
        convName == h.botUsername ++ ",".toList ++ username)) = true := by
      rw [Bool.not_eq_true', Bool.or_eq_false_iff]
      exact ⟨beq_false_of_ne (not_or.mp hc).1, beq_false_of_ne (not_or.mp hc).2⟩
    have he : handleLogin h env tr convName username = [] := by
      simp only [handleLogin, hb]; rfl
    exact ⟨fun hex => by simp [he] at hex, fun _ => he, fun hcc => absurd hcc hc⟩

/-- Witness of C5: in the conversation `alice,pollbot` the token is issued for
`alice` and the link is sent to `alice`; in `alice,bob,pollbot` nothing happens. -/
theorem handleLogin_direct_conversation_only_witness :
    handleLogin exampleHandler exampleEnv [] "alice,pollbot".toList "alice".toList =
      [ Event.loginToken "alice".toList "s3cr3t".toList,
        Event.sendTlf "alice".toList (loginIntro ++
          "https://bots.example/pollbot/login?token=s3cr3t&username=alice".toList)
          (.sent (some 101)) ] ∧
    handleLogin exampleHandler exampleEnv [] "alice,bob,pollbot".toList "alice".toList = [] :=
  ⟨by rfl,
   (handleLogin_direct_conversation_only exampleHandler exampleEnv [] "alice,bob,pollbot".toList
     "alice".toList).2.1 (by decide)⟩

/-- C6: for a `!poll` command that tokenizes without error and whose flags
parse, `handlePoll` with fewer than two positional arguments returns an error
having made no call at all (no send, no reaction, no `CreatePoll`); with two or
more, it runs `generateAnonymousPoll` when the parsed flag `anonymous` is true
and `generatePoll` otherwise, with the first positional argument as prompt and
the remaining ones, in order and at least one, as options, and every
`CreatePoll` call of the run stores an option count of at least 1. -/
theorem handlePoll_rejects_short_commands (h : Handler) (env : Env) (tr : List Event)
    (cmd : GoString) (convID : ConvIDStr) (msgID : MessageID)
    (name : GoString) (rest : List GoString) (anonymous : Bool) (args : List GoString)
    (hs : env.splitTokens cmd = ⟨name :: rest, [], none⟩)
    (hf : flagParse false rest = .ok (anonymous, args)) :
    (args.length < 2 →
      handlePoll h env tr cmd convID msgID = (.ret (some usageError), [])) ∧
    (2 ≤ args.length →
      ∃ prompt options, args = prompt :: options ∧ options ≠ [] ∧
        handlePoll h env tr cmd convID msgID =
          (if anonymous then
            (.ret (generateAnonymousPoll h env tr convID msgID prompt options).1,
              (generateAnonymousPoll h env tr convID msgID prompt options).2)
           else
            (.ret (generatePoll h env tr convID msgID prompt options).1,
              (generatePoll h env tr convID msgID prompt options).2)) ∧
        ∀ c m r n d, Event.createPoll c m r n d ∈ (handlePoll h env tr cmd convID msgID).2 →
          1 ≤ n) := by
  constructor
  · intro hlt
    simp [handlePoll, hs, hf, hlt]
  · intro hge
    match args, hge, hf with
    | prompt :: o :: os, _, hf =>
      have hrun : handlePoll h env tr cmd convID msgID =
          (if anonymous then
            (.ret (generateAnonymousPoll h env tr convID msgID prompt (o :: os)).1,
              (generateAnonymousPoll h env tr convID msgID prompt (o :: os)).2)
           else
            (.ret (generatePoll h env tr convID msgID prompt (o :: os)).1,
              (generatePoll h env tr convID msgID prompt (o :: os)).2)) := by
        simp only [handlePoll, hs, hf]
        cases anonymous <;> simp
      refine ⟨prompt, o :: os, rfl, by simp, hrun, ?_⟩
      intro c m r n d hmem
      rw [hrun] at hmem
      cases anonymous
      · have := generatePoll_no_createPoll h env tr convID msgID prompt (o :: os) _ hmem
        simp [Event.isCreatePoll] at this
      · have := generateAnonymousPoll_createPoll_count h env tr convID msgID prompt (o :: os)
          c m r n d hmem
        simp at this
        omega

/-- Witness of C6: `!poll -anonymous Lunch?` has one positional argument and is
rejected without any call; `!poll -anonymous Lunch? Pizza Salad` runs the
anonymous engine with prompt `Lunch?` and options `Pizza`, `Salad`. -/
theorem handlePoll_rejects_short_commands_witness :
    (exampleEnv.splitTokens "!poll -anonymous Lunch?".toList =
        ⟨"!poll".toList :: ["-anonymous".toList, "Lunch?".toList], [], none⟩ ∧
      flagParse false ["-anonymous".toList, "Lunch?".toList] = .ok (true, ["Lunch?".toList])) ∧
    handlePoll exampleHandler exampleEnv [] "!poll -anonymous Lunch?".toList "conv".toList 7 =
      (.ret (some usageError), []) ∧
    ∃ prompt options, ["Lunch?".toList, "Pizza".toList, "Salad".toList] = prompt :: options ∧
      options ≠ [] ∧
      handlePoll exampleHandler exampleEnv [] "!poll -anonymous Lunch? Pizza Salad".toList
          "conv".toList 7 =
        (if true then
          (.ret (generateAnonymousPoll exampleHandler exampleEnv [] "conv".toList 7 prompt
              options).1,
            (generateAnonymousPoll exampleHandler exampleEnv [] "conv".toList 7 prompt options).2)
         else
          (.ret (generatePoll exampleHandler exampleEnv [] "conv".toList 7 prompt options).1,
            (generatePoll exampleHandler exampleEnv [] "conv".toList 7 prompt options).2)) ∧
      ∀ c m r n d, Event.createPoll c m r n d ∈
          (handlePoll exampleHandler exampleEnv [] "!poll -anonymous Lunch? Pizza Salad".toList
            "conv".toList 7).2 → 1 ≤ n :=
  ⟨⟨by decide, by rfl⟩,
   (handlePoll_rejects_short_commands exampleHandler exampleEnv [] "!poll -anonymous Lunch?".toList
     "conv".toList 7 "!poll".toList ["-anonymous".toList, "Lunch?".toList] true
     ["Lunch?".toList] (by decide) (by rfl)).1 (by decide),
   (handlePoll_rejects_short_commands exampleHandler exampleEnv []
     "!poll -anonymous Lunch? Pizza Salad".toList "conv".toList 7 "!poll".toList
     ["-anonymous".toList, "Lunch?".toList, "Pizza".toList, "Salad".toList] true
     ["Lunch?".toList, "Pizza".toList, "Salad".toList] (by decide) (by rfl)).2 (by decide)⟩

/-- C7: `generatePoll` sends exactly one message, the prompt followed by the n
options in order, the i-th marked `NumberToEmoji(i)`; if that send returns a
message ID, it then calls `ReactByConvID` on that message exactly n times, the
i-th time with `NumberToEmoji(i)`; and on no path does it call `db.CreatePoll`. -/
theorem generatePoll_one_message_n_reactions (h : Handler) (env : Env) (tr : List Event)
    (convID : ConvIDStr) (msgID : MessageID) (prompt : GoString) (options : List GoString) :
    (∃ res rest, (generatePoll h env tr convID msgID prompt options).2 =
      Event.send convID
        ("Poll: *".toList ++ prompt ++ "*\n\n".toList ++
          options.enum.flatMap (fun p =>
            h.numberToEmoji ((p.1 : Int) + 1) ++ "  ".toList ++ p.2 ++ "\n".toList) ++
          "Tap a reaction below to register your vote!".toList) res :: rest ∧
      res = env.sendMessageByConvID tr convID (pollBody h prompt options) ∧
      (∀ id, res = .sent (some id) →
        rest.filterMap Event.reaction? =
          options.enum.map (fun p => (convID, id, h.numberToEmoji ((p.1 : Int) + 1))) ∧
        (rest.filterMap Event.reaction?).length = options.length)) ∧
    ((generatePoll h env tr convID msgID prompt options).2.filter Event.isSend).length = 1 ∧
    (∀ e ∈ (generatePoll h env tr convID msgID prompt options).2, e.isCreatePoll = false) := by
  obtain ⟨rest, hrun, hrest, hreact⟩ := generatePoll_events h env tr convID msgID prompt options
  have hbody : pollBody h prompt options =
      "Poll: *".toList ++ prompt ++ "*\n\n".toList ++
        options.enum.flatMap (fun p =>
          h.numberToEmoji ((p.1 : Int) + 1) ++ "  ".toList ++ p.2 ++ "\n".toList) ++
        "Tap a reaction below to register your vote!".toList := by
    unfold pollBody
    rw [optionsLoop_eq]
    rfl
  refine ⟨⟨_, rest, ?_, rfl, ?_⟩, ?_, generatePoll_no_createPoll h env tr convID msgID prompt
    options⟩
  · rw [hrun, hbody]
  · intro id hid
    have := hreact id hid
    exact ⟨this, by rw [this]; simp⟩
  · rw [hrun]
    have hnone : rest.filter Event.isSend = [] := by
      rw [List.filter_eq_nil_iff]
      intro e he
      simp [(hrest e he).1]
    simp [List.filter_cons, Event.isSend, hnone]

/-- Witness of C7: the public poll `Lunch?` with options `Pizza` and `Salad`, with
a transport that rejects the second reaction: one message, two reactions `:1:`
and `:2:` on message 100, the failure reported through `ChatErrorf`, and no
`CreatePoll`. -/
theorem generatePoll_one_message_n_reactions_witness :
    (generatePoll exampleHandler flakyEnv [] "conv".toList 7 "Lunch?".toList
        ["Pizza".toList, "Salad".toList]).2 =
      [ Event.send "conv".toList
          "Poll: *Lunch?*\n\n:1:  Pizza\n:2:  Salad\nTap a reaction below to register your vote!".toList
          (.sent (some 100)),
        Event.react "conv".toList 100 ":1:".toList (.sent none),
        Event.react "conv".toList 100 ":2:".toList (.failed "timeout".toList),
        Event.chatErrorf "conv".toList "failed to set reaction option: %s".toList
          "timeout".toList ] ∧
    ((generatePoll exampleHandler flakyEnv [] "conv".toList 7 "Lunch?".toList
        ["Pizza".toList, "Salad".toList]).2.filter Event.isSend).length = 1 :=
  ⟨by decide,
   (generatePoll_one_message_n_reactions exampleHandler flakyEnv [] "conv".toList 7
     "Lunch?".toList ["Pizza".toList, "Salad".toList]).2.1⟩

/-- C8, the input refuting it: the command `!poll Lunch?` has a prompt and zero
options; `handlePoll` returns the error of line 114 and makes no call, so
nothing is echoed into the conversation and an error value is returned. -/
theorem handlePoll_zero_options_returns_error :
    handlePoll exampleHandler exampleEnv [] "!poll Lunch?".toList "conv".toList 7 =
      (.ret (some usageError), []) ∧
    ¬ ((∃ msg, Event.chatEcho "conv".toList msg ∈
          (handlePoll exampleHandler exampleEnv [] "!poll Lunch?".toList "conv".toList 7).2) ∧
        (handlePoll exampleHandler exampleEnv [] "!poll Lunch?".toList "conv".toList 7).1 =
          .ret none) := by
  have hrun : handlePoll exampleHandler exampleEnv [] "!poll Lunch?".toList "conv".toList 7 =
      (.ret (some usageError), []) := by decide
  refine ⟨hrun, ?_⟩
  rw [hrun]
  simp

/-- C8 as amended: a user error reported by the tokenizer is echoed into the
conversation with `ChatEcho` and `handlePoll` returns nil; a command with fewer
than two positional arguments is answered with the returned error of line 114
and no call at all.  In both cases no message of a poll is sent and
`db.CreatePoll` is not called. -/
theorem handlePoll_command_errors (h : Handler) (env : Env) (tr : List Event)
    (cmd : GoString) (convID : ConvIDStr) (msgID : MessageID) :
    (∀ toks userErr, env.splitTokens cmd = ⟨toks, userErr, none⟩ → userErr ≠ [] →
      handlePoll h env tr cmd convID msgID = (.ret none, [Event.chatEcho convID userErr])) ∧
    (∀ name rest anonymous args, env.splitTokens cmd = ⟨name :: rest, [], none⟩ →
      flagParse false rest = .ok (anonymous, args) → args.length < 2 →
      handlePoll h env tr cmd convID msgID = (.ret (some usageError), [])) ∧
    ((∃ toks userErr, env.splitTokens cmd = ⟨toks, userErr, none⟩ ∧ userErr ≠ []) ∨
      (∃ name rest anonymous args, env.splitTokens cmd = ⟨name :: rest, [], none⟩ ∧
        flagParse false rest = .ok (anonymous, args) ∧ args.length < 2) →
      ∀ e ∈ (handlePoll h env tr cmd convID msgID).2,
        e.isSend = false ∧ e.isCreatePoll = false) := by
  have h1 : ∀ toks userErr, env.splitTokens cmd = ⟨toks, userErr, none⟩ → userErr ≠ [] →
      handlePoll h env tr cmd convID msgID = (.ret none, [Event.chatEcho convID userErr]) := by
    intro toks userErr hs hu
    simp [handlePoll, hs, hu]
  have h2 : ∀ name rest anonymous args, env.splitTokens cmd = ⟨name :: rest, [], none⟩ →
      flagParse false rest = .ok (anonymous, args) → args.length < 2 →
      handlePoll h env tr cmd convID msgID = (.ret (some usageError), []) := by
    intro name rest anonymous args hs hf hlt
    simp [handlePoll, hs, hf, hlt]
  refine ⟨h1, h2, ?_⟩
  rintro (⟨toks, userErr, hs, hu⟩ | ⟨name, rest, anonymous, args, hs, hf, hlt⟩)
  · rw [h1 toks userErr hs hu]
    simp [Event.isSend, Event.isCreatePoll]
  · rw [h2 name rest anonymous args hs hf hlt]
    simp

/-- Witness of C8 as amended: `!poll 'Lunch?` has an unbalanced quote, which is
echoed; `!poll Lunch?` has no option, which is returned as an error. -/
theorem handlePoll_command_errors_witness :
    handlePoll exampleHandler exampleEnv [] "!poll 'Lunch?".toList "conv".toList 7 =
      (.ret none, [Event.chatEcho "conv".toList "unbalanced quote".toList]) ∧
    handlePoll exampleHandler exampleEnv [] "!poll -anonymous Lunch?".toList "conv".toList 7 =
      (.ret (some usageError), []) :=
  ⟨(handlePoll_command_errors exampleHandler exampleEnv [] "!poll 'Lunch?".toList
      "conv".toList 7).1 [] "unbalanced quote".toList (by decide) (by decide),
   (handlePoll_command_errors exampleHandler exampleEnv [] "!poll -anonymous Lunch?".toList
      "conv".toList 7).2.1 "!poll".toList ["-anonymous".toList, "Lunch?".toList] true
      ["Lunch?".toList] (by decide) (by rfl) (by decide)⟩

/-- C9: for an event that is not a timed one and whose start and end carry
valid `YYYY-MM-DD` dates, in any timezone and for either value of
`format24HourTime`: `ParseTime` returns `isAllDay = true` and no error, the start
at midnight UTC of the start date, and the end exactly one calendar day (86400
seconds, one day number; the day before in the same month when the end is not
the first of a month) before midnight UTC of the end date.  `FormatTimeRange`
renders an event whose end date is the day after its start date as the start in
layout `Mon Jan 2, 2006` alone, which is weekday, month, day and year of the
start date, without time or zone; when the compensated end is another day of the
same year, as `<start Mon Jan 2> - <end Mon Jan 2, 2006>`; and when it is in
another year, as `<start Mon Jan 2, 2006> - <end Mon Jan 2, 2006>`. -/
theorem FormatTimeRange_all_day (parseRFC3339 : GoString → Option Time) (s e : EventDateTime)
    (timezone : Location) (format24HourTime : Bool) (ys ye : Int) (ms ds me de : Nat)
    (hnot : ¬ (s.DateTime ≠ [] ∧ e.DateTime ≠ []))
    (hs : parseAllDayDate s.Date = some (ys, ms, ds))
    (he : parseAllDayDate e.Date = some (ye, me, de)) :
    ((ParseTime parseRFC3339 (some s) (some e)).isAllDay = true ∧
      (ParseTime parseRFC3339 (some s) (some e)).err = none ∧
      (ParseTime parseRFC3339 (some s) (some e)).start.sec = (dateUTC ys ms ds).sec ∧
      (ParseTime parseRFC3339 (some s) (some e)).start.date = (ys, ms, ds) ∧
      (ParseTime parseRFC3339 (some s) (some e)).endTime.sec = (dateUTC ye me de).sec - 86400 ∧
      (ParseTime parseRFC3339 (some s) (some e)).endTime.days = dateToDays ye me de - 1 ∧
      (1 < de → (ParseTime parseRFC3339 (some s) (some e)).endTime.date = (ye, me, de - 1))) ∧
    (dateToDays ye me de = dateToDays ys ms ds + 1 →
      FormatTimeRange parseRFC3339 (some s) (some e) timezone format24HourTime =
        .ok ((dateUTC ys ms ds).format layoutDateYear)) ∧
    (dateUTC ys ms ds).format layoutDateYear =
      shortDayNames.getD ((dateToDays ys ms ds + 1) % 7).toNat [] ++ " ".toList ++
        shortMonthNames.getD (ms - 1) [] ++ " ".toList ++ appendInt ds 0 ++ ", ".toList ++
        appendInt ys 4 ∧
    (absDate (dateToDays ye me de - 1) ≠ (ys, ms, ds) →
      (absDate (dateToDays ye me de - 1)).1 = ys →
      FormatTimeRange parseRFC3339 (some s) (some e) timezone format24HourTime =
        .ok ((dateUTC ys ms ds).format layoutDate ++ " - ".toList ++
          ((dateUTC ye me de).addSeconds (-24 * 3600)).format layoutDateYear)) ∧
    ((absDate (dateToDays ye me de - 1)).1 ≠ ys →
      FormatTimeRange parseRFC3339 (some s) (some e) timezone format24HourTime =
        .ok ((dateUTC ys ms ds).format layoutDateYear ++ " - ".toList ++
          ((dateUTC ye me de).addSeconds (-24 * 3600)).format layoutDateYear)) := by
  have hp := ParseTime_all_day parseRFC3339 s e ys ye ms ds me de hnot hs he
  obtain ⟨hsm1, hsm, hsd1, hsd⟩ := parseAllDayDate_valid _ _ _ _ hs
  obtain ⟨hem1, hem, hed1, hed⟩ := parseAllDayDate_valid _ _ _ _ he
  have hrt : absDate (dateToDays ys ms ds) = (ys, ms, ds) :=
    absDate_dateToDays ys ms ds hsm1 hsm hsd1 hsd
  have hd1 : (dateUTC ys ms ds).date = (ys, ms, ds) := by
    rw [Time.date, dateUTC_days, hrt]
  have hd2 : ((dateUTC ye me de).addSeconds (-24 * 3600)).date =
      absDate (dateToDays ye me de - 1) := by
    rw [Time.date, dateUTC_sub_day_days]
  refine ⟨?_, ?_, ?_, ?_, ?_⟩
  · rw [hp]
    refine ⟨rfl, rfl, rfl, hd1, ?_, dateUTC_sub_day_days _ _ _, ?_⟩
    · simp only [Time.addSeconds]
      omega
    · intro hde
      have hprev : dateToDays ye me de - 1 = dateToDays ye me (de - 1) := by
        simp only [dateToDays]
        omega
      show ((dateUTC ye me de).addSeconds (-24 * 3600)).date = (ye, me, de - 1)
      rw [hd2, hprev]
      exact absDate_dateToDays ye me (de - 1) hem1 hem (by omega) (by omega)
  · intro hday
    have hsame : absDate (dateToDays ye me de - 1) = (ys, ms, ds) := by
      rw [hday, Int.add_sub_cancel, hrt]
    simp only [FormatTimeRange, hp, Bool.not_true, Bool.false_eq_true, if_false, hd1, hd2,
      hsame]
    simp
  · simp [Time.format, layoutDateYear, Time.formatChunk, hd1, Time.weekday, dateUTC_days]
  · intro hne hyear
    have hne2 : ¬ (ms = (absDate (dateToDays ye me de - 1)).2.1 ∧
        ds = (absDate (dateToDays ye me de - 1)).2.2) := by
      intro hh
      apply hne
      apply Prod.ext hyear
      exact Prod.ext hh.1.symm hh.2.symm
    simp only [FormatTimeRange, hp, Bool.not_true, Bool.false_eq_true, if_false, hd1, hd2, hyear]
    simp [hne2]
  · intro hyear
    have hy2 : ¬ ys = (absDate (dateToDays ye me de - 1)).1 :=
      fun hh => hyear hh.symm
    simp only [FormatTimeRange, hp, Bool.not_true, Bool.false_eq_true, if_false, hd1, hd2]
    simp [hy2]

/-- Witness of C9: the all-day event from 2020-01-01 to 2020-01-02 is rendered
`Wed Jan 1, 2020`, in any timezone. -/
theorem FormatTimeRange_all_day_witness :
    (¬ ((allDay "2020-01-01").DateTime ≠ [] ∧ (allDay "2020-01-02").DateTime ≠ []) ∧
      parseAllDayDate (allDay "2020-01-01").Date = some (2020, 1, 1) ∧
      parseAllDayDate (allDay "2020-01-02").Date = some (2020, 1, 2) ∧
      dateToDays 2020 1 2 = dateToDays 2020 1 1 + 1) ∧
    (dateUTC 2020 1 1).format layoutDateYear = "Wed Jan 1, 2020".toList ∧
    FormatTimeRange parseRFC3339Strict (some (allDay "2020-01-01")) (some (allDay "2020-01-02"))
      est true = .ok ((dateUTC 2020 1 1).format layoutDateYear) :=
  ⟨⟨by decide, by decide, by decide, by decide⟩, by decide,
   (FormatTimeRange_all_day parseRFC3339Strict (allDay "2020-01-01") (allDay "2020-01-02")
     est true 2020 2020 1 1 1 2 (by decide) (by decide) (by decide)).2.1 (by decide)⟩

/-- C10: for a timed event whose start and end parse as RFC 3339, in any
timezone, with `format24HourTime = false`: both instants are shown in the
timezone; if they fall on the same day there, the result is
`<start Mon Jan 2, 2006> <start time> - <end time> (<zone>)`; if only the year
is the same, `<start Mon Jan 2> <start time> - <end Mon Jan 2, 2006> <end time>
(<zone>)`; otherwise both dates carry the year.  Each time is the hour on the
12-hour clock, then `:MM` exactly when the minute is not zero, then `am` or
`pm`; the zone is the abbreviation in effect at the start. -/
theorem FormatTimeRange_timed (parseRFC3339 : GoString → Option Time) (s e : EventDateTime)
    (timezone : Location) (t1 t2 : Time)
    (hs : s.DateTime ≠ []) (he : e.DateTime ≠ [])
    (h1 : parseRFC3339 s.DateTime = some t1) (h2 : parseRFC3339 e.DateTime = some t2) :
    FormatTimeRange parseRFC3339 (some s) (some e) timezone false =
      .ok (
        if (t1.In timezone).date = (t2.In timezone).date then
          (t1.In timezone).format layoutDateYear ++ " ".toList ++
            twelveHourClock (t1.In timezone) ++ " - ".toList ++
            twelveHourClock (t2.In timezone) ++
            " (".toList ++ (t1.In timezone).format layoutZone ++ ")".toList
        else if (t1.In timezone).date.1 = (t2.In timezone).date.1 then
          (t1.In timezone).format layoutDate ++ " ".toList ++
            twelveHourClock (t1.In timezone) ++ " - ".toList ++
            (t2.In timezone).format layoutDateYear ++ " ".toList ++
            twelveHourClock (t2.In timezone) ++
            " (".toList ++ (t1.In timezone).format layoutZone ++ ")".toList
        else
          (t1.In timezone).format layoutDateYear ++ " ".toList ++
            twelveHourClock (t1.In timezone) ++ " - ".toList ++
            (t2.In timezone).format layoutDateYear ++ " ".toList ++
            twelveHourClock (t2.In timezone) ++
            " (".toList ++ (t1.In timezone).format layoutZone ++ ")".toList) ∧
    ((timezone.lookup t1.sec).1 ≠ [] →
      (t1.In timezone).format layoutZone = (timezone.lookup t1.sec).1) := by
  have hp := ParseTime_timed parseRFC3339 s e t1 t2 hs he h1 h2
  constructor
  · simp only [FormatTimeRange, hp, Bool.not_false, if_true, clockText_timed]
    by_cases hd : (t1.In timezone).date = (t2.In timezone).date
    · simp [hd]
    · by_cases hy : (t1.In timezone).date.1 = (t2.In timezone).date.1
      · have hne : ¬ ((t1.In timezone).date.2.1 = (t2.In timezone).date.2.1 ∧
            (t1.In timezone).date.2.2 = (t2.In timezone).date.2.2) :=
          fun hh => hd (Prod.ext hy (Prod.ext hh.1 hh.2))
        simp only [hd, hy, if_false, if_true]
        simp [hne]
      · simp [hd, hy]
  · intro hname
    simp [Time.format, layoutZone, Time.formatChunk, Time.In, hname]

/-- Witness of C10: the event from 18:30 to 19:30 on 2020-01-01, eastern standard
time, is rendered `Wed Jan 1, 2020 6:30pm - 7:30pm (EST)`, and an event from
17:00 on January 31 to 18:00 on February 1 as
`Fri Jan 31 5pm - Sat Feb 1, 2020 6pm (EST)`. -/
theorem FormatTimeRange_timed_witness :
    FormatTimeRange parseRFC3339Strict (some (timed "2020-01-01T18:30:00-05:00"))
      (some (timed "2020-01-01T19:30:00-05:00")) est false =
        .ok "Wed Jan 1, 2020 6:30pm - 7:30pm (EST)".toList ∧
    FormatTimeRange parseRFC3339Strict (some (timed "2020-01-31T22:00:00Z"))
      (some (timed "2020-02-01T23:00:00Z")) est false =
        .ok "Fri Jan 31 5pm - Sat Feb 1, 2020 6pm (EST)".toList :=
  ⟨((FormatTimeRange_timed parseRFC3339Strict (timed "2020-01-01T18:30:00-05:00")
      (timed "2020-01-01T19:30:00-05:00") est ⟨1577921400, ⟨fun _ => ([], -18000)⟩⟩
      ⟨1577925000, ⟨fun _ => ([], -18000)⟩⟩ (by decide) (by decide) (by rfl) (by rfl)).1).trans
      (by rfl),
   ((FormatTimeRange_timed parseRFC3339Strict (timed "2020-01-31T22:00:00Z")
      (timed "2020-02-01T23:00:00Z") est ⟨1580508000, utc⟩ ⟨1580598000, utc⟩
      (by decide) (by decide) (by rfl) (by rfl)).1).trans (by rfl)⟩

end ManagedBots
